import Mathlib

set_option autoImplicit false

/-!
Verification of the order/payment reconciliation logic of the shop backend.

The repository keeps several concatenated revisions of `routes/orders.js` and
`models/order.js` in single files.  The definitions below are shallow
embeddings of the revisions the claims cite:

* the Razorpay revision of `routes/orders.js` (creation, initiation,
  verification handlers, `calculateShippingCost`, `validateOrderTotals`,
  `isOrderValid`);
* the first PhonePe revision (creation, initiation, callback and verify
  handlers using a plain SHA-256 checksum);
* the second PhonePe revision (creation handler and the HMAC-based callback).

Currency amounts (JS `Number`) are modelled as rationals; the SHA-256 / HMAC
primitives and the base64+JSON decoding of PhonePe payloads are abstract
function parameters, since every claim is parametric in them.  The MongoDB
store is a list of order documents; `save` of a fresh document is an insert
guarded by the unique `orderId` index (duplicate-key error 11000), and
`save` of a fetched document is an in-place first-match update, as Mongoose
performs it.  String fields that no handler logic reads (product names,
addresses beyond the validated ones, URLs) are kept only where a validation
rule touches them.
-/

namespace Shop

/-- `paymentStatus` values appearing across the revisions: the model enum has
`Pending`/`Paid`/`Failed` (models/order.js lines 68-73) while the Razorpay
revision of the routes uses the string `Success` as its paid-terminal value. -/
inductive PaymentStatus where
  | Pending
  | Paid
  | Failed
  | Success
deriving DecidableEq, Repr

/-- One line item: `quantity` and `price` (models/order.js lines 82-90); the
inert string fields (productId, name, variant) carry no handler logic. -/
structure Item where
  quantity : ℚ
  price : ℚ
deriving DecidableEq, Repr

/-- The order document fields the payment handlers read or write. -/
structure OrderDoc where
  orderId : String
  items : List Item
  couponCode : String
  couponDiscount : ℚ
  shippingCost : ℚ
  paymentMethod : String
  paymentStatus : PaymentStatus
  total : ℚ
  createdAt : ℚ
  emailSent : Bool
  razorpayOrderId : Option String
  razorpayPaymentId : Option String
  phonepeTransactionId : Option String
deriving DecidableEq, Repr

/-- Result of one request-handler run: the store after the run, the HTTP
status, the error message (if any) and how many confirmation-email sends the
run attempted. -/
structure HResult where
  store : List OrderDoc
  status : Nat
  error : Option String
  emailAttempts : Nat
deriving DecidableEq, Repr

/-- `Order.findOne` followed by `doc.save()`: replace the first document
matching the query predicate. -/
def updateFirst (p : OrderDoc → Bool) (f : OrderDoc → OrderDoc) :
    List OrderDoc → List OrderDoc
  | [] => []
  | o :: rest => if p o then f o :: rest else o :: updateFirst p f rest

/-- routes/orders.js lines 482-486 (Razorpay revision): shipping tiers. -/
def calculateShippingCost (subtotal : ℚ) : ℚ :=
  if subtotal ≥ 800 then 0
  else if subtotal ≥ 500 then 50
  else 80

/-- `items.reduce((sum, item) => sum + item.price * item.quantity, 0)`. -/
def itemsSubtotal (items : List Item) : ℚ :=
  items.foldl (fun sum it => sum + it.price * it.quantity) 0

/-- JavaScript's `toUpperCase()` on the ASCII coupon codes in play, written
over the character list so that it evaluates inside the kernel. -/
def jsToUpperCase (s : String) : String :=
  String.mk (s.toList.map Char.toUpper)

/-- Output of `validateOrderTotals` (routes/orders.js lines 489-510). -/
structure Totals where
  subtotal : ℚ
  shippingCost : ℚ
  couponDiscount : ℚ
  calculatedTotal : ℚ
  expectedShippingCost : ℚ
deriving DecidableEq, Repr

/-- routes/orders.js lines 489-510 (Razorpay revision): recompute subtotal,
shipping and coupon discount server-side; the calculated total is floored at
1 by `Math.max(1, ...)`. -/
def validateOrderTotals (items : List Item) (couponCode : String) : Totals :=
  let subtotal := itemsSubtotal items
  let expectedShippingCost := calculateShippingCost subtotal
  let freeShip := couponCode ≠ "" ∧ jsToUpperCase couponCode = "FREESHIPPING"
  let couponDiscount := if freeShip then expectedShippingCost else 0
  let shippingCost := if freeShip then 0 else expectedShippingCost
  { subtotal := subtotal
    shippingCost := shippingCost
    couponDiscount := couponDiscount
    calculatedTotal := max 1 (subtotal + shippingCost - couponDiscount)
    expectedShippingCost := expectedShippingCost }

/-- routes/orders.js lines 513-518: the 30-minute order validity window,
`(now - createdAt) / (1000 * 60) <= 30` with times in milliseconds. -/
def isOrderValid (now createdAt : ℚ) : Bool :=
  decide ((now - createdAt) / (1000 * 60) ≤ 30)

/-- Character class `[^\s@]` of the email regex. -/
def emailChar (c : Char) : Bool :=
  !c.isWhitespace && !(c == '@')

/-- Regex `^[^\s@]+@[^\s@]+\.[^\s@]+$` (routes/orders.js line 522): exactly
one `@`, nonempty local and domain parts of non-space non-`@` characters,
and a dot in the interior of the domain part. -/
def emailMatches (s : String) : Bool :=
  let cs := s.toList
  let a := cs.takeWhile (fun c => !(c == '@'))
  let b := (cs.dropWhile (fun c => !(c == '@'))).drop 1
  (cs.count '@' == 1) && !a.isEmpty && !b.isEmpty && a.all emailChar && b.all emailChar &&
    ((b.drop 1).dropLast).contains '.'

/-- Regex `^[0-9]{10}$` (routes/orders.js line 523). -/
def phoneMatches (s : String) : Bool :=
  s.length == 10 && s.toList.all Char.isDigit

/-- Regex `^[0-9]{6}$` (routes/orders.js line 524). -/
def pincodeMatches (s : String) : Bool :=
  s.length == 6 && s.toList.all Char.isDigit

/-- The request body of `POST /` in the Razorpay revision, after
sanitization; the fields every validation rule reads. -/
structure OrderData where
  firstName : String
  lastName : String
  email : String
  phone : String
  address1 : String
  city : String
  state : String
  pincode : String
  gstNumber : String
  gstState : String
  gstCity : String
  items : List Item
  couponCode : String
  couponDiscount : ℚ
  shippingCost : ℚ
  paymentMethod : String
  total : ℚ
deriving DecidableEq, Repr

/-- `quantity: Number(item.quantity) || 1` (a zero quantity is coerced to 1);
`price: Number(item.price) || 0` is the identity on rationals. -/
def coerceItems (items : List Item) : List Item :=
  items.map (fun it =>
    ⟨if it.quantity = 0 then (1 : ℚ) else it.quantity, it.price⟩)

/-- `{x with paymentStatus := v}` helper used by the PhonePe handlers. -/
def setStatus (v : PaymentStatus) (o : OrderDoc) : OrderDoc :=
  { o with paymentStatus := v }

/-- The query predicate `Order.findOne({ orderId })`. -/
def byOrderId (oid : String) (o : OrderDoc) : Bool :=
  o.orderId == oid

/-- The field/format guards of `POST /` in the Razorpay revision
(routes/orders.js lines 570-611), in source order, returning the first
failing check's error message. -/
def createFieldError (d : OrderData) : Option String :=
  if d.firstName = "" ∨ d.lastName = "" ∨ d.email = "" ∨ d.phone = "" ∨
      d.address1 = "" ∨ d.city = "" ∨ d.state = "" ∨ d.pincode = "" ∨
      coerceItems d.items = [] ∨ d.total = 0 ∨ d.paymentMethod = "" then
    some "Missing required fields"
  else if ¬ emailMatches d.email then some "Invalid email format"
  else if ¬ phoneMatches d.phone then some "Invalid phone number"
  else if ¬ pincodeMatches d.pincode then some "Invalid pincode"
  else if (coerceItems d.items).any
      (fun it => decide (it.quantity < 1) || decide (it.price < 0)) then
    some "Invalid item quantity or price"
  else if d.gstNumber ≠ "" ∧ (d.gstState = "" ∨ d.gstCity = "") then
    some "GST state and city are required"
  else if d.paymentMethod ≠ "COD" ∧ d.paymentMethod ≠ "Razorpay" then
    some "Invalid payment method"
  else none

/-- The coupon and shipping-cost validation block of `POST /`
(routes/orders.js lines 616-644): on success it yields the effective coupon
code and discount the persisted order carries. -/
def couponCheck (d : OrderData) : Except String (String × ℚ) :=
  let totals := validateOrderTotals (coerceItems d.items) d.couponCode
  if d.couponCode ≠ "" then
    if jsToUpperCase d.couponCode = "FREESHIPPING" then
      if d.shippingCost ≠ 0 then
        Except.error "Invalid shipping cost for FREESHIPPING coupon"
      else Except.ok (d.couponCode, totals.couponDiscount)
    else
      if d.shippingCost ≠ totals.expectedShippingCost then
        Except.error "Invalid shipping cost for no coupon"
      else Except.ok ("", 0)
  else
    if d.shippingCost ≠ totals.expectedShippingCost then
      Except.error "Invalid shipping cost"
    else Except.ok (d.couponCode, 0)

/-- routes/orders.js lines 527-713 (Razorpay revision), `POST /`: validate the
request, recompute totals server-side, persist the order (the unique
`orderId` index turns a collision into error 11000, answered with 400), and
for COD orders attempt the confirmation email after the order is saved.
`newOrderId` stands for the generated `ORDER-${Date.now()}-...` string and
`emailOk` for whether the `sendEmail` call succeeds. -/
def createOrderRazorpay (store : List OrderDoc) (now : ℚ) (newOrderId : String)
    (emailOk : Bool) (d : OrderData) : HResult :=
  match createFieldError d with
  | some e => ⟨store, 400, some e, 0⟩
  | none =>
    match couponCheck d with
    | Except.error e => ⟨store, 400, some e, 0⟩
    | Except.ok (effCode, effDiscount) =>
      if |(validateOrderTotals (coerceItems d.items) d.couponCode).calculatedTotal - d.total| >
          (0.01 : ℚ) then
        ⟨store, 400, some "Invalid total", 0⟩
      else if store.any (byOrderId newOrderId) then
        ⟨store, 400, some "Duplicate order ID", 0⟩
      else
        let newOrder : OrderDoc :=
          { orderId := newOrderId
            items := coerceItems d.items
            couponCode := effCode
            couponDiscount := effDiscount
            shippingCost := d.shippingCost
            paymentMethod := d.paymentMethod
            paymentStatus := if d.paymentMethod = "COD" then .Success else .Pending
            total := d.total
            createdAt := now
            emailSent := false
            razorpayOrderId := none
            razorpayPaymentId := none
            phonepeTransactionId := none }
        if d.paymentMethod = "COD" then
          if emailOk then
            ⟨updateFirst (byOrderId newOrderId) (fun o => { o with emailSent := true })
                (newOrder :: store), 201, none, 1⟩
          else ⟨newOrder :: store, 201, none, 1⟩
        else ⟨newOrder :: store, 201, none, 0⟩

/-- The query `Order.findOne({ orderId, paymentStatus: 'Pending',
paymentMethod: 'Razorpay' })` of the initiation handler. -/
def pendingRazorpay (oid : String) (o : OrderDoc) : Bool :=
  o.orderId == oid && o.paymentStatus == PaymentStatus.Pending &&
    o.paymentMethod == "Razorpay"

/-- routes/orders.js lines 715-828 (Razorpay revision),
`POST /initiate-razorpay-payment`: the order must exist, be Pending, be a
Razorpay order, be within the 30-minute window, and its stored total must
re-validate; only then is the gateway called and its order id stored.
`gatewayOrderId` stands for `razorpay.orders.create` (`none` models the
gateway call failing or returning no id). -/
def initiateRazorpayPayment (store : List OrderDoc) (now : ℚ) (oid : String)
    (gatewayOrderId : Option String) : HResult :=
  if oid = "" then ⟨store, 400, some "Missing orderId", 0⟩
  else
    match store.find? (pendingRazorpay oid) with
    | none => ⟨store, 404, some "Order not found or not in pending state", 0⟩
    | some o =>
      if ¬ isOrderValid now o.createdAt then
        ⟨store, 400, some "Order has expired", 0⟩
      else
        let totals := validateOrderTotals o.items o.couponCode
        let shipErr : Option String :=
          if o.couponCode ≠ "" ∧ jsToUpperCase o.couponCode = "FREESHIPPING" then
            if o.shippingCost ≠ 0 then
              some "Invalid shipping cost for FREESHIPPING coupon"
            else none
          else if o.shippingCost ≠ totals.expectedShippingCost then
            some "Invalid shipping cost"
          else none
        match shipErr with
        | some e => ⟨store, 400, some e, 0⟩
        | none =>
          if |totals.calculatedTotal - o.total| > (0.01 : ℚ) then
            ⟨store, 400, some "Invalid order total", 0⟩
          else
            match gatewayOrderId with
            | none => ⟨store, 500, some "Failed to create Razorpay order", 0⟩
            | some rid =>
              ⟨updateFirst (byOrderId oid) (fun x => { x with razorpayOrderId := some rid }) store,
                200, none, 0⟩

/-- routes/orders.js lines 830-943 (Razorpay revision),
`POST /verify-razorpay-payment`: HMAC-SHA256 signature check first, then the
order is resolved and gated (method, already-processed, Razorpay order-id
match, validity window); on success the status becomes `Success` and the
confirmation email is attempted once if not yet sent.  `hmac secret msg`
stands for `crypto.createHmac('sha256', secret).update(msg).digest('hex')`,
`emailOk` for whether `sendEmail` succeeds. -/
def verifyRazorpayPayment (hmac : String → String → String) (secret : String)
    (now : ℚ) (store : List OrderDoc) (oid pid roid sig : String)
    (emailOk : Bool) : HResult :=
  if oid = "" ∨ pid = "" ∨ roid = "" ∨ sig = "" then
    ⟨store, 400, some "Missing required fields for payment verification", 0⟩
  else if hmac secret (roid ++ "|" ++ pid) ≠ sig then
    ⟨store, 400, some "Invalid payment signature", 0⟩
  else
    match store.find? (byOrderId oid) with
    | none => ⟨store, 404, some "Order not found", 0⟩
    | some o =>
      if o.paymentMethod ≠ "Razorpay" then
        ⟨store, 400, some "Invalid payment method for this order", 0⟩
      else if o.paymentStatus = PaymentStatus.Success then
        ⟨store, 400, some "Order already processed", 0⟩
      else if o.razorpayOrderId ≠ some roid then
        ⟨store, 400, some "Razorpay order ID mismatch", 0⟩
      else if ¬ isOrderValid now o.createdAt then
        ⟨store, 400, some "Order has expired", 0⟩
      else
        let paidStore := updateFirst (byOrderId oid)
          (fun x => { x with paymentStatus := PaymentStatus.Success
                             razorpayPaymentId := some pid }) store
        if o.emailSent then ⟨paidStore, 200, none, 0⟩
        else if emailOk then
          ⟨updateFirst (byOrderId oid) (fun x => { x with emailSent := true }) paidStore,
            200, none, 1⟩
        else ⟨paidStore, 200, none, 1⟩

/-- The decoded PhonePe callback payload
(`JSON.parse(Buffer.from(response, 'base64'))`).  The first PhonePe revision
reads `merchantTransactionId`, `state` and `code`; the second also reads
`transactionId`, `amount` and `responseCode`. -/
structure CallbackReport where
  merchantTransactionId : String
  transactionId : String
  amount : ℚ
  state : String
  code : String
  responseCode : String
deriving DecidableEq, Repr

/-- The query predicate `Order.findOne({ phonepeTransactionId })`. -/
def byPhonepeTxn (tid : String) (o : OrderDoc) : Bool :=
  o.phonepeTransactionId == some tid

/-- routes/orders.js lines 267-335 (first PhonePe revision),
`POST /phonepe-callback`: verify the `X-VERIFY` checksum
(`sha256(response + '/pg/v1/status' + SALT_KEY) + '###' + SALT_INDEX`),
decode the payload, resolve the order by its merchant transaction id and set
its status to Paid on `COMPLETED`/`PAYMENT_SUCCESS`, otherwise Failed.
`sha` stands for hex-encoded SHA-256 and `dec` for base64+JSON decoding;
an empty string models a missing header/body field. -/
def phonepeCallbackV2 (sha : String → String) (dec : String → Option CallbackReport)
    (saltKey saltIndex : String) (store : List OrderDoc)
    (xVerify response : String) : HResult :=
  if xVerify = "" ∨ response = "" then
    ⟨store, 400, some "Missing required callback parameters", 0⟩
  else
    let computedChecksum := sha (response ++ "/pg/v1/status" ++ saltKey) ++ "###" ++ saltIndex
    if xVerify ≠ computedChecksum then
      ⟨store, 400, some "Checksum verification failed", 0⟩
    else
      match dec response with
      | none => ⟨store, 400, some "Invalid callback response format", 0⟩
      | some r =>
        match store.find? (byPhonepeTxn r.merchantTransactionId) with
        | none => ⟨store, 404, some "Order not found", 0⟩
        | some _ =>
          let newStatus : PaymentStatus :=
            if r.state = "COMPLETED" ∧ r.code = "PAYMENT_SUCCESS" then .Paid else .Failed
          ⟨updateFirst (byPhonepeTxn r.merchantTransactionId) (setStatus newStatus) store,
            200, none, 0⟩

/-- routes/orders.js lines 1282-1346 (second PhonePe revision),
`POST /phonepe-callback`: the checksum is an HMAC keyed with the salt, the
success condition is `state === 'COMPLETED' && responseCode === 'SUCCESS'`,
and on success the provider's `transactionId` overwrites
`phonepeTransactionId`.  The decoded payload's `amount` field is destructured
but never compared with the order's total. -/
def phonepeCallbackV3 (hmac : String → String → String)
    (dec : String → Option CallbackReport) (saltKey saltIndex : String)
    (store : List OrderDoc) (xVerify response : String) : HResult :=
  if xVerify = "" ∨ response = "" then
    ⟨store, 400, some "Missing required callback parameters", 0⟩
  else
    let computedChecksum :=
      hmac saltKey (response ++ "/pg/v1/status" ++ saltKey) ++ "###" ++ saltIndex
    if xVerify ≠ computedChecksum then
      ⟨store, 400, some "Checksum verification failed", 0⟩
    else
      match dec response with
      | none => ⟨store, 400, some "Invalid callback response format", 0⟩
      | some r =>
        match store.find? (byPhonepeTxn r.merchantTransactionId) with
        | none => ⟨store, 404, some "Order not found", 0⟩
        | some _ =>
          if r.state = "COMPLETED" ∧ r.responseCode = "SUCCESS" then
            ⟨updateFirst (byPhonepeTxn r.merchantTransactionId)
                (fun o => { o with paymentStatus := PaymentStatus.Paid
                                   phonepeTransactionId := some r.transactionId }) store,
              200, none, 0⟩
          else
            ⟨updateFirst (byPhonepeTxn r.merchantTransactionId)
                (setStatus PaymentStatus.Failed) store, 200, none, 0⟩

/-- The body of PhonePe's status-check response that the verify handler
reads: `response.data.success` and `response.data.code`. -/
structure GatewayStatus where
  success : Bool
  code : String
deriving DecidableEq, Repr

/-- routes/orders.js lines 338-416 (first PhonePe revision),
`POST /verify-phonepe-payment`: resolve the order by orderId and transaction
id, query the gateway's status endpoint, and set the status to Paid on
`PAYMENT_SUCCESS`, otherwise Failed — with no regard to the order's current
(possibly terminal) status.  `gateway` is the gateway response (`none`
models the request failing, answered 502). -/
def verifyPhonepePaymentV2 (store : List OrderDoc) (oid tid : String)
    (gateway : Option GatewayStatus) : HResult :=
  if oid = "" ∨ tid = "" then
    ⟨store, 400, some "Missing orderId or transactionId", 0⟩
  else
    match store.find? (fun o => o.orderId == oid && o.phonepeTransactionId == some tid) with
    | none => ⟨store, 404, some "Order not found", 0⟩
    | some _ =>
      match gateway with
      | none => ⟨store, 502, some "Failed to verify payment with PhonePe", 0⟩
      | some g =>
        let newStatus : PaymentStatus :=
          if g.success ∧ g.code = "PAYMENT_SUCCESS" then .Paid else .Failed
        ⟨updateFirst (fun o => o.orderId == oid && o.phonepeTransactionId == some tid)
            (setStatus newStatus) store, 200, none, 0⟩

/-- The request body fields `POST /initiate-phonepe-payment` requires. -/
structure PhonepeInitRequest where
  orderId : String
  amount : ℚ
  customerFirstName : String
  customerLastName : String
  customerEmail : String
  customerPhone : String
  redirectUrl : String
  callbackUrl : String
  mobileNumber : String
  merchantUserId : String
deriving DecidableEq, Repr

/-- PhonePe's pay-API response as the initiation handler reads it:
`data.success` and `data.data.instrumentResponse.redirectInfo.url`. -/
structure PhonepeInitResponse where
  success : Bool
  redirectUrl : Option String
deriving DecidableEq, Repr

/-- routes/orders.js lines 104-264 (first PhonePe revision),
`POST /initiate-phonepe-payment`: requires the request fields and the PhonePe
environment variables, the order to exist and to be Pending — and nothing
else: there is no validity-window (expiry) check.  On a successful gateway
response the generated merchant transaction id is stored on the order.
`newTxnId` stands for the generated `TXN-${orderId}-${Date.now()}` string;
`gateway` is the pay-API response (`none` models the axios call throwing,
answered 502). -/
def initiatePhonepePaymentV2 (merchantId saltKey saltIndex : String)
    (store : List OrderDoc) (req : PhonepeInitRequest) (newTxnId : String)
    (gateway : Option PhonepeInitResponse) : HResult :=
  if req.orderId = "" ∨ req.amount = 0 ∨ req.customerFirstName = "" ∨
      req.customerLastName = "" ∨ req.customerEmail = "" ∨ req.customerPhone = "" ∨
      req.redirectUrl = "" ∨ req.callbackUrl = "" ∨ req.mobileNumber = "" ∨
      req.merchantUserId = "" then
    ⟨store, 400, some "Missing required payment initiation fields", 0⟩
  else if merchantId = "" ∨ saltKey = "" ∨ saltIndex = "" then
    ⟨store, 500, some "Server configuration error", 0⟩
  else
    match store.find? (byOrderId req.orderId) with
    | none => ⟨store, 404, some "Order not found", 0⟩
    | some o =>
      if o.paymentStatus ≠ PaymentStatus.Pending then
        ⟨store, 400, some "Order payment already processed or invalid", 0⟩
      else
        match gateway with
        | none => ⟨store, 502, some "Failed to connect to PhonePe", 0⟩
        | some g =>
          if ¬ (g.success ∧ g.redirectUrl.isSome) then
            ⟨store, 500, some "PhonePe payment initiation failed", 0⟩
          else
            ⟨updateFirst (byOrderId req.orderId)
                (fun x => { x with phonepeTransactionId := some newTxnId }) store,
              200, none, 0⟩

/-- The request body of `POST /` in the PhonePe revisions: the handler only
checks the truthiness of `customer`, `shippingAddress`, `items`, `total` and
`paymentMethod`. -/
structure PhonepeOrderData where
  customerPresent : Bool
  shippingAddressPresent : Bool
  itemsPresent : Bool
  total : ℚ
  paymentMethod : String
deriving DecidableEq, Repr

/-- routes/orders.js lines 1136-1191 (second PhonePe revision), `POST /`:
after the presence and payment-method checks the order is persisted with
`paymentStatus: orderData.paymentMethod === 'COD' ? 'Pending' : 'Pending'`
(both branches of the source's ternary are the string `'Pending'`).  The
document fields the handler does not set are empty defaults. -/
def createOrderPhonepeV3 (store : List OrderDoc) (now : ℚ) (newOrderId : String)
    (d : PhonepeOrderData) : HResult :=
  if ¬ d.customerPresent ∨ ¬ d.shippingAddressPresent ∨ ¬ d.itemsPresent ∨
      d.total = 0 ∨ d.paymentMethod = "" then
    ⟨store, 400, some "Missing required fields", 0⟩
  else if d.paymentMethod ≠ "PhonePe" ∧ d.paymentMethod ≠ "COD" then
    ⟨store, 400, some "Invalid payment method", 0⟩
  else if store.any (byOrderId newOrderId) then
    ⟨store, 400, some "Duplicate order ID or transaction ID", 0⟩
  else
    let newOrder : OrderDoc :=
      { orderId := newOrderId
        items := []
        couponCode := ""
        couponDiscount := 0
        shippingCost := 0
        paymentMethod := d.paymentMethod
        paymentStatus := if d.paymentMethod = "COD" then PaymentStatus.Pending
                         else PaymentStatus.Pending
        total := d.total
        createdAt := now
        emailSent := false
        razorpayOrderId := none
        razorpayPaymentId := none
        phonepeTransactionId := none }
    ⟨newOrder :: store, 201, none, 0⟩

/-- models/order.js lines 111-138, `orderSchema.pre('validate')` of the first
model revision: for a new document, the provided total must be within 0.01
of `itemsTotal + shippingMethod.cost - (coupon.discount || 0)` — the raw
formula, with the values stored on the document and no flooring. -/
def orderPreValidateTotalOk (o : OrderDoc) : Bool :=
  decide (|o.total - (itemsSubtotal o.items + o.shippingCost - o.couponDiscount)| ≤ (0.01 : ℚ))

/-! ### Small evaluation facts used by concrete runs -/

theorem toUpper_freeshipping : jsToUpperCase "FREESHIPPING" = "FREESHIPPING" := by decide

theorem freeshipping_ne_empty : ("FREESHIPPING" : String) ≠ "" := by decide

theorem razorpay_ne_cod : ("Razorpay" : String) ≠ "COD" := by decide

/-! ### Store lemmas -/

theorem find?_updateFirst (p : OrderDoc → Bool) (f : OrderDoc → OrderDoc)
    (hp : ∀ o, p (f o) = p o) :
    ∀ l : List OrderDoc, (updateFirst p f l).find? p = (l.find? p).map f := by
  intro l
  induction l with
  | nil => simp [updateFirst]
  | cons o rest ih =>
    by_cases h : p o
    · rw [updateFirst, if_pos h, List.find?_cons_of_pos _ ((hp o).trans h),
        List.find?_cons_of_pos _ h]
      rfl
    · rw [updateFirst, if_neg h]
      rw [List.find?_cons_of_neg _ h, List.find?_cons_of_neg _ h, ih]

theorem updateFirst_updateFirst (p : OrderDoc → Bool) (f : OrderDoc → OrderDoc)
    (hp : ∀ o, p (f o) = p o) (hf : ∀ o, f (f o) = f o) :
    ∀ l : List OrderDoc, updateFirst p f (updateFirst p f l) = updateFirst p f l := by
  intro l
  induction l with
  | nil => rfl
  | cons o rest ih =>
    by_cases h : p o
    · rw [updateFirst, if_pos h, updateFirst, if_pos ((hp o).trans h), hf o]
    · rw [updateFirst, if_neg h, updateFirst, if_neg h, ih]

theorem map_orderId_updateFirst (p : OrderDoc → Bool) (f : OrderDoc → OrderDoc)
    (hf : ∀ o, (f o).orderId = o.orderId) :
    ∀ l : List OrderDoc,
      (updateFirst p f l).map OrderDoc.orderId = l.map OrderDoc.orderId := by
  intro l
  induction l with
  | nil => rfl
  | cons o rest ih =>
    by_cases h : p o
    · rw [updateFirst, if_pos h]
      simp [hf o]
    · rw [updateFirst, if_neg h]
      simp [ih]

/-- The validity window only closes as time advances. -/
theorem isOrderValid_mono {t1 t2 c : ℚ} (h : t1 ≤ t2)
    (h2 : isOrderValid t2 c = true) : isOrderValid t1 c = true := by
  simp only [isOrderValid, decide_eq_true_eq] at h2 ⊢
  have hle : (t1 - c) / (1000 * 60) ≤ (t2 - c) / (1000 * 60) := by
    have hc : (0 : ℚ) < 1000 * 60 := by norm_num
    exact (div_le_div_iff_of_pos_right hc).2 (by linarith)
  exact le_trans hle h2

/-! ### Characterization of `verifyRazorpayPayment` -/

/-- Any run of the Razorpay verify handler that does not answer 200 leaves
the store untouched and attempts no email. -/
theorem verifyRazorpay_not200 (hmac : String → String → String) (secret : String)
    (now : ℚ) (store : List OrderDoc) (oid pid roid sig : String) (emailOk : Bool)
    (h : (verifyRazorpayPayment hmac secret now store oid pid roid sig emailOk).status ≠ 200) :
    (verifyRazorpayPayment hmac secret now store oid pid roid sig emailOk).store = store ∧
      (verifyRazorpayPayment hmac secret now store oid pid roid sig emailOk).emailAttempts = 0 := by
  by_cases h1 : oid = "" ∨ pid = "" ∨ roid = "" ∨ sig = ""
  · simp [verifyRazorpayPayment, h1]
  by_cases h2 : hmac secret (roid ++ "|" ++ pid) ≠ sig
  · simp [verifyRazorpayPayment, h1, h2]
  cases hf : store.find? (byOrderId oid) with
  | none => simp [verifyRazorpayPayment, h1, h2, hf]
  | some o =>
    by_cases h3 : o.paymentMethod ≠ "Razorpay"
    · simp [verifyRazorpayPayment, h1, h2, hf, h3]
    by_cases h4 : o.paymentStatus = PaymentStatus.Success
    · simp [verifyRazorpayPayment, h1, h2, hf, h3, h4]
    by_cases h5 : o.razorpayOrderId ≠ some roid
    · simp [verifyRazorpayPayment, h1, h2, hf, h3, h4, h5]
    by_cases h6 : isOrderValid now o.createdAt = true
    · exfalso
      apply h
      by_cases h7 : o.emailSent <;> by_cases h8 : emailOk <;>
        simp [verifyRazorpayPayment, h1, h2, hf, h3, h4, h5, h6, h7, h8]
    · simp [verifyRazorpayPayment, h1, h2, hf, h3, h4, h5, h6]

/-- If the Razorpay verify handler answers 200, every guard passed. -/
theorem verifyRazorpay_200_conds (hmac : String → String → String) (secret : String)
    (now : ℚ) (store : List OrderDoc) (oid pid roid sig : String) (emailOk : Bool)
    (h : (verifyRazorpayPayment hmac secret now store oid pid roid sig emailOk).status = 200) :
    ¬ (oid = "" ∨ pid = "" ∨ roid = "" ∨ sig = "") ∧
      hmac secret (roid ++ "|" ++ pid) = sig ∧
      ∃ o, store.find? (byOrderId oid) = some o ∧ o.paymentMethod = "Razorpay" ∧
        o.paymentStatus ≠ PaymentStatus.Success ∧ o.razorpayOrderId = some roid ∧
        isOrderValid now o.createdAt = true := by
  by_cases h1 : oid = "" ∨ pid = "" ∨ roid = "" ∨ sig = ""
  · simp [verifyRazorpayPayment, h1] at h
  by_cases h2 : hmac secret (roid ++ "|" ++ pid) ≠ sig
  · simp [verifyRazorpayPayment, h1, h2] at h
  cases hf : store.find? (byOrderId oid) with
  | none => simp [verifyRazorpayPayment, h1, h2, hf] at h
  | some o =>
    by_cases h3 : o.paymentMethod ≠ "Razorpay"
    · simp [verifyRazorpayPayment, h1, h2, hf, h3] at h
    by_cases h4 : o.paymentStatus = PaymentStatus.Success
    · simp [verifyRazorpayPayment, h1, h2, hf, h3, h4] at h
    by_cases h5 : o.razorpayOrderId ≠ some roid
    · simp [verifyRazorpayPayment, h1, h2, hf, h3, h4, h5] at h
    by_cases h6 : isOrderValid now o.createdAt = true
    · exact ⟨h1, not_not.mp h2, o, rfl, not_not.mp h3, h4, not_not.mp h5, h6⟩
    · simp [verifyRazorpayPayment, h1, h2, hf, h3, h4, h5, h6] at h

/-- Conversely, when every guard passes the handler answers 200. -/
theorem verifyRazorpay_200_of (hmac : String → String → String) (secret : String)
    (now : ℚ) (store : List OrderDoc) (oid pid roid sig : String) (emailOk : Bool)
    (h1 : ¬ (oid = "" ∨ pid = "" ∨ roid = "" ∨ sig = ""))
    (h2 : hmac secret (roid ++ "|" ++ pid) = sig) (o : OrderDoc)
    (hf : store.find? (byOrderId oid) = some o)
    (h3 : o.paymentMethod = "Razorpay") (h4 : o.paymentStatus ≠ PaymentStatus.Success)
    (h5 : o.razorpayOrderId = some roid) (h6 : isOrderValid now o.createdAt = true) :
    (verifyRazorpayPayment hmac secret now store oid pid roid sig emailOk).status = 200 := by
  have h2' : ¬ hmac secret (roid ++ "|" ++ pid) ≠ sig := fun hh => hh h2
  have h3' : ¬ o.paymentMethod ≠ "Razorpay" := fun hh => hh h3
  have h5' : ¬ o.razorpayOrderId ≠ some roid := fun hh => hh h5
  by_cases h7 : o.emailSent <;> by_cases h8 : emailOk <;>
    simp [verifyRazorpayPayment, h1, h2', hf, h3', h4, h5', h6, h7, h8]

/-- After a 200 answer the resolved order is stored as `Success`, still a
Razorpay order. -/
theorem verifyRazorpay_200_store (hmac : String → String → String) (secret : String)
    (now : ℚ) (store : List OrderDoc) (oid pid roid sig : String) (emailOk : Bool)
    (h : (verifyRazorpayPayment hmac secret now store oid pid roid sig emailOk).status = 200) :
    (((verifyRazorpayPayment hmac secret now store oid pid roid sig emailOk).store.find?
        (byOrderId oid)).map (fun x => (x.paymentStatus, x.paymentMethod))) =
      some (PaymentStatus.Success, "Razorpay") := by
  obtain ⟨h1, h2, o, hf, h3, h4, h5, h6⟩ :=
    verifyRazorpay_200_conds hmac secret now store oid pid roid sig emailOk h
  have h2' : ¬ hmac secret (roid ++ "|" ++ pid) ≠ sig := fun hh => hh h2
  have h3' : ¬ o.paymentMethod ≠ "Razorpay" := fun hh => hh h3
  have h5' : ¬ o.razorpayOrderId ≠ some roid := fun hh => hh h5
  have hp1 : ∀ x : OrderDoc, byOrderId oid
      ({ x with paymentStatus := PaymentStatus.Success, razorpayPaymentId := some pid }) =
      byOrderId oid x := fun _ => rfl
  have hp2 : ∀ x : OrderDoc, byOrderId oid ({ x with emailSent := true }) = byOrderId oid x :=
    fun _ => rfl
  have hfind1 := find?_updateFirst (byOrderId oid)
    (fun x => { x with paymentStatus := PaymentStatus.Success, razorpayPaymentId := some pid })
    hp1 store
  by_cases h7 : o.emailSent
  · simp [verifyRazorpayPayment, h1, h2', hf, h3, h3', h4, h5', h6, h7, hfind1]
  by_cases h8 : emailOk
  · have hfind2 := find?_updateFirst (byOrderId oid) (fun x => { x with emailSent := true }) hp2
      (updateFirst (byOrderId oid)
        (fun x => { x with paymentStatus := PaymentStatus.Success,
                           razorpayPaymentId := some pid }) store)
    simp [verifyRazorpayPayment, h1, h2', hf, h3, h3', h4, h5', h6, h7, h8, hfind1, hfind2]
  · simp [verifyRazorpayPayment, h1, h2', hf, h3, h3', h4, h5', h6, h7, h8, hfind1]

/-! ### Characterization of `phonepeCallbackV2` -/

/-- The PhonePe callback handler contains no email sending at all. -/
theorem phonepeCallbackV2_attempts (sha : String → String)
    (dec : String → Option CallbackReport) (saltKey saltIndex : String)
    (store : List OrderDoc) (xv resp : String) :
    (phonepeCallbackV2 sha dec saltKey saltIndex store xv resp).emailAttempts = 0 := by
  by_cases h1 : xv = "" ∨ resp = ""
  · simp [phonepeCallbackV2, h1]
  by_cases h2 : xv ≠ sha (resp ++ "/pg/v1/status" ++ saltKey) ++ "###" ++ saltIndex
  · simp [phonepeCallbackV2, h1, h2]
  cases hd : dec resp with
  | none => simp [phonepeCallbackV2, h1, h2, hd]
  | some r =>
    cases hf : store.find? (byPhonepeTxn r.merchantTransactionId) with
    | none => simp [phonepeCallbackV2, h1, h2, hd, hf]
    | some o => simp [phonepeCallbackV2, h1, h2, hd, hf]

/-- Replaying the same callback report leaves the store exactly where the
first delivery left it: resolution is by `phonepeTransactionId`, which the
first PhonePe revision never rewrites, and the written status depends only
on the report. -/
theorem phonepeCallbackV2_idem (sha : String → String)
    (dec : String → Option CallbackReport) (saltKey saltIndex : String)
    (store : List OrderDoc) (xv resp : String) :
    (phonepeCallbackV2 sha dec saltKey saltIndex
        (phonepeCallbackV2 sha dec saltKey saltIndex store xv resp).store xv resp).store =
      (phonepeCallbackV2 sha dec saltKey saltIndex store xv resp).store := by
  by_cases h1 : xv = "" ∨ resp = ""
  · simp [phonepeCallbackV2, h1]
  by_cases h2 : xv ≠ sha (resp ++ "/pg/v1/status" ++ saltKey) ++ "###" ++ saltIndex
  · simp [phonepeCallbackV2, h1, h2]
  cases hd : dec resp with
  | none => simp [phonepeCallbackV2, h1, h2, hd]
  | some r =>
    cases hf : store.find? (byPhonepeTxn r.merchantTransactionId) with
    | none => simp [phonepeCallbackV2, h1, h2, hd, hf]
    | some o =>
      have hfind := find?_updateFirst (byPhonepeTxn r.merchantTransactionId)
        (setStatus (if r.state = "COMPLETED" ∧ r.code = "PAYMENT_SUCCESS" then
          PaymentStatus.Paid else PaymentStatus.Failed)) (fun _ => rfl) store
      have hidem := updateFirst_updateFirst (byPhonepeTxn r.merchantTransactionId)
        (setStatus (if r.state = "COMPLETED" ∧ r.code = "PAYMENT_SUCCESS" then
          PaymentStatus.Paid else PaymentStatus.Failed)) (fun _ => rfl) (fun _ => rfl) store
      simp [phonepeCallbackV2, h1, h2, hd, hf, hfind, hidem]

/-! ### Claim C1 -/

/-- C1 counterexample: the second application of an authentic
"payment succeeded" report does NOT return the existing terminal state.  At a
concrete Pending Razorpay order with a matching signature, the first verify
run answers 200 and persists Success, but replaying the very same report
answers 400 with "Order already processed" — an error response, not the
stored terminal state — even though the store still holds the order as
Success. -/
theorem replayed_verify_answers_error_cex :
    (verifyRazorpayPayment (fun a b => a ++ b) "s" 0
        [⟨"O1", [], "", 0, 80, "Razorpay", PaymentStatus.Pending, 930, 0, false,
          some "R1", none, none⟩] "O1" "P1" "R1" "sR1|P1" true).status = 200 ∧
    (verifyRazorpayPayment (fun a b => a ++ b) "s" 0
        (verifyRazorpayPayment (fun a b => a ++ b) "s" 0
          [⟨"O1", [], "", 0, 80, "Razorpay", PaymentStatus.Pending, 930, 0, false,
            some "R1", none, none⟩] "O1" "P1" "R1" "sR1|P1" true).store
        "O1" "P1" "R1" "sR1|P1" true).status = 400 ∧
    (verifyRazorpayPayment (fun a b => a ++ b) "s" 0
        (verifyRazorpayPayment (fun a b => a ++ b) "s" 0
          [⟨"O1", [], "", 0, 80, "Razorpay", PaymentStatus.Pending, 930, 0, false,
            some "R1", none, none⟩] "O1" "P1" "R1" "sR1|P1" true).store
        "O1" "P1" "R1" "sR1|P1" true).error = some "Order already processed" ∧
    (((verifyRazorpayPayment (fun a b => a ++ b) "s" 0
        [⟨"O1", [], "", 0, 80, "Razorpay", PaymentStatus.Pending, 930, 0, false,
          some "R1", none, none⟩] "O1" "P1" "R1" "sR1|P1" true).store.find?
        (byOrderId "O1")).map (fun x => x.paymentStatus)) =
      some PaymentStatus.Success := by
  have hv1 : (verifyRazorpayPayment (fun a b => a ++ b) "s" 0
      [⟨"O1", [], "", 0, 80, "Razorpay", PaymentStatus.Pending, 930, 0, false,
        some "R1", none, none⟩] "O1" "P1" "R1" "sR1|P1" true).status = 200 :=
    verifyRazorpay_200_of (fun a b => a ++ b) "s" 0
      [⟨"O1", [], "", 0, 80, "Razorpay", PaymentStatus.Pending, 930, 0, false,
        some "R1", none, none⟩] "O1" "P1" "R1" "sR1|P1" true (by decide) (by decide)
      ⟨"O1", [], "", 0, 80, "Razorpay", PaymentStatus.Pending, 930, 0, false,
        some "R1", none, none⟩ (by decide) (by decide) (by decide) (by decide)
      (by norm_num [isOrderValid])
  have hst := verifyRazorpay_200_store (fun a b => a ++ b) "s" 0
    [⟨"O1", [], "", 0, 80, "Razorpay", PaymentStatus.Pending, 930, 0, false,
      some "R1", none, none⟩] "O1" "P1" "R1" "sR1|P1" true hv1
  set S := (verifyRazorpayPayment (fun a b => a ++ b) "s" 0
    [⟨"O1", [], "", 0, 80, "Razorpay", PaymentStatus.Pending, 930, 0, false,
      some "R1", none, none⟩] "O1" "P1" "R1" "sR1|P1" true).store with hS
  cases hf2 : S.find? (byOrderId "O1") with
  | none => rw [hf2] at hst; simp at hst
  | some o2 =>
    rw [hf2] at hst
    simp at hst
    have h1 : ¬(("O1" : String) = "" ∨ ("P1" : String) = "" ∨ ("R1" : String) = "" ∨
        ("sR1|P1" : String) = "") := by decide
    have h2' : ¬ (fun a b => a ++ b) "s" ("R1" ++ "|" ++ "P1") ≠ "sR1|P1" :=
      fun hh => hh (by decide)
    have h3' : ¬ o2.paymentMethod ≠ "Razorpay" := fun hh => hh hst.2
    refine ⟨hv1, ?_, ?_, ?_⟩
    · simp [verifyRazorpayPayment, h1, h2', hf2, h3', hst.1]
    · simp [verifyRazorpayPayment, h1, h2', hf2, h3', hst.1]
    · simp [hst.1]

/-- C1 (amended): applying a payment-confirmation handler twice with the same
report changes the order state at most once, and the second application
performs no further mutation and sends no second confirmation email.  For the
PhonePe callback the second delivery rewrites the same status value (and that
handler sends no email at all); for the Razorpay verify call (at a second
time `t2 ≥ t1`) the second application leaves the store as the first left it
and attempts no email — but when the first application succeeded it answers
400 "Order already processed" rather than returning the existing terminal
state (see the counterexample). -/
theorem confirm_twice_is_noop (sha : String → String)
    (dec : String → Option CallbackReport) (saltKey saltIndex : String)
    (pStore : List OrderDoc) (xv resp : String)
    (hmac : String → String → String) (secret : String) (rStore : List OrderDoc)
    (oid pid roid sig : String) (t1 t2 : ℚ) (e1 e2 : Bool) (ht : t1 ≤ t2) :
    ((phonepeCallbackV2 sha dec saltKey saltIndex
        (phonepeCallbackV2 sha dec saltKey saltIndex pStore xv resp).store xv resp).store =
      (phonepeCallbackV2 sha dec saltKey saltIndex pStore xv resp).store ∧
     (phonepeCallbackV2 sha dec saltKey saltIndex
        (phonepeCallbackV2 sha dec saltKey saltIndex pStore xv resp).store xv resp).emailAttempts
        = 0) ∧
    ((verifyRazorpayPayment hmac secret t2
        (verifyRazorpayPayment hmac secret t1 rStore oid pid roid sig e1).store
        oid pid roid sig e2).store =
      (verifyRazorpayPayment hmac secret t1 rStore oid pid roid sig e1).store ∧
     (verifyRazorpayPayment hmac secret t2
        (verifyRazorpayPayment hmac secret t1 rStore oid pid roid sig e1).store
        oid pid roid sig e2).emailAttempts = 0 ∧
     ((verifyRazorpayPayment hmac secret t1 rStore oid pid roid sig e1).status = 200 →
       (verifyRazorpayPayment hmac secret t2
          (verifyRazorpayPayment hmac secret t1 rStore oid pid roid sig e1).store
          oid pid roid sig e2).status = 400 ∧
       (verifyRazorpayPayment hmac secret t2
          (verifyRazorpayPayment hmac secret t1 rStore oid pid roid sig e1).store
          oid pid roid sig e2).error = some "Order already processed")) := by
  refine ⟨⟨phonepeCallbackV2_idem sha dec saltKey saltIndex pStore xv resp,
    phonepeCallbackV2_attempts sha dec saltKey saltIndex _ xv resp⟩, ?_⟩
  by_cases h200 : (verifyRazorpayPayment hmac secret t1 rStore oid pid roid sig e1).status = 200
  · obtain ⟨h1, h2, o, hf, h3, h4, h5, h6⟩ :=
      verifyRazorpay_200_conds hmac secret t1 rStore oid pid roid sig e1 h200
    have hst := verifyRazorpay_200_store hmac secret t1 rStore oid pid roid sig e1 h200
    set S := (verifyRazorpayPayment hmac secret t1 rStore oid pid roid sig e1).store with hS
    cases hf2 : S.find? (byOrderId oid) with
    | none => rw [hf2] at hst; simp at hst
    | some o2 =>
      rw [hf2] at hst
      simp at hst
      have h2' : ¬ hmac secret (roid ++ "|" ++ pid) ≠ sig := fun hh => hh h2
      have h3' : ¬ o2.paymentMethod ≠ "Razorpay" := fun hh => hh hst.2
      refine ⟨?_, ?_, fun _ => ⟨?_, ?_⟩⟩ <;>
        simp [verifyRazorpayPayment, h1, h2', hf2, h3', hst.1]
  · obtain ⟨hs, _⟩ := verifyRazorpay_not200 hmac secret t1 rStore oid pid roid sig e1 h200
    rw [hs]
    by_cases h200b :
        (verifyRazorpayPayment hmac secret t2 rStore oid pid roid sig e2).status = 200
    · exfalso
      obtain ⟨h1, h2, o, hf, h3, h4, h5, h6⟩ :=
        verifyRazorpay_200_conds hmac secret t2 rStore oid pid roid sig e2 h200b
      exact h200 (verifyRazorpay_200_of hmac secret t1 rStore oid pid roid sig e1
        h1 h2 o hf h3 h4 h5 (isOrderValid_mono ht h6))
    · obtain ⟨hs2, ha2⟩ := verifyRazorpay_not200 hmac secret t2 rStore oid pid roid sig e2 h200b
      exact ⟨hs2, ha2, fun hh => absurd hh h200⟩

/-- C1 witness: the amended theorem applied at a concrete Pending Razorpay
order with a matching signature (so the first verify run really transitions
to Success and the replay really hits the already-processed guard) and at a
concrete callback delivery. -/
theorem confirm_twice_is_noop_witness :
    (0 : ℚ) ≤ 0 ∧
    (((phonepeCallbackV2 (fun s => s) (fun _ => none) "k" "1"
        (phonepeCallbackV2 (fun s => s) (fun _ => none) "k" "1" [] "x" "r").store "x" "r").store =
      (phonepeCallbackV2 (fun s => s) (fun _ => none) "k" "1" [] "x" "r").store ∧
     (phonepeCallbackV2 (fun s => s) (fun _ => none) "k" "1"
        (phonepeCallbackV2 (fun s => s) (fun _ => none) "k" "1" [] "x" "r").store "x" "r").emailAttempts
        = 0) ∧
    ((verifyRazorpayPayment (fun a b => a ++ b) "s" 0
        (verifyRazorpayPayment (fun a b => a ++ b) "s" 0
          [⟨"O1", [], "", 0, 80, "Razorpay", PaymentStatus.Pending, 930, 0, false,
            some "R1", none, none⟩] "O1" "P1" "R1" "sR1|P1" true).store
        "O1" "P1" "R1" "sR1|P1" true).store =
      (verifyRazorpayPayment (fun a b => a ++ b) "s" 0
          [⟨"O1", [], "", 0, 80, "Razorpay", PaymentStatus.Pending, 930, 0, false,
            some "R1", none, none⟩] "O1" "P1" "R1" "sR1|P1" true).store ∧
     (verifyRazorpayPayment (fun a b => a ++ b) "s" 0
        (verifyRazorpayPayment (fun a b => a ++ b) "s" 0
          [⟨"O1", [], "", 0, 80, "Razorpay", PaymentStatus.Pending, 930, 0, false,
            some "R1", none, none⟩] "O1" "P1" "R1" "sR1|P1" true).store
        "O1" "P1" "R1" "sR1|P1" true).emailAttempts = 0 ∧
     ((verifyRazorpayPayment (fun a b => a ++ b) "s" 0
          [⟨"O1", [], "", 0, 80, "Razorpay", PaymentStatus.Pending, 930, 0, false,
            some "R1", none, none⟩] "O1" "P1" "R1" "sR1|P1" true).status = 200 →
       (verifyRazorpayPayment (fun a b => a ++ b) "s" 0
          (verifyRazorpayPayment (fun a b => a ++ b) "s" 0
            [⟨"O1", [], "", 0, 80, "Razorpay", PaymentStatus.Pending, 930, 0, false,
              some "R1", none, none⟩] "O1" "P1" "R1" "sR1|P1" true).store
          "O1" "P1" "R1" "sR1|P1" true).status = 400 ∧
       (verifyRazorpayPayment (fun a b => a ++ b) "s" 0
          (verifyRazorpayPayment (fun a b => a ++ b) "s" 0
            [⟨"O1", [], "", 0, 80, "Razorpay", PaymentStatus.Pending, 930, 0, false,
              some "R1", none, none⟩] "O1" "P1" "R1" "sR1|P1" true).store
          "O1" "P1" "R1" "sR1|P1" true).error = some "Order already processed"))) :=
  ⟨le_refl 0, confirm_twice_is_noop (fun s => s) (fun _ => none) "k" "1" [] "x" "r"
    (fun a b => a ++ b) "s"
    [⟨"O1", [], "", 0, 80, "Razorpay", PaymentStatus.Pending, 930, 0, false,
      some "R1", none, none⟩]
    "O1" "P1" "R1" "sR1|P1" 0 0 true true (le_refl 0)⟩

/-! ### Characterization of `createOrderRazorpay` -/

/-- Every creation run either rejects with 400 leaving the store untouched,
or answers 201 having prepended one order whose total passed the
recomputed-and-floored check and whose orderId was not yet present. -/
theorem createOrder_spec (store : List OrderDoc) (now : ℚ) (newOrderId : String)
    (emailOk : Bool) (d : OrderData) :
    ((createOrderRazorpay store now newOrderId emailOk d).status = 400 ∧
      (createOrderRazorpay store now newOrderId emailOk d).store = store) ∨
    ((createOrderRazorpay store now newOrderId emailOk d).status = 201 ∧
      |(validateOrderTotals (coerceItems d.items) d.couponCode).calculatedTotal - d.total| ≤
        (0.01 : ℚ) ∧
      store.any (byOrderId newOrderId) = false ∧
      ∃ o, (createOrderRazorpay store now newOrderId emailOk d).store = o :: store ∧
        o.orderId = newOrderId ∧ o.total = d.total ∧
        o.paymentStatus = (if d.paymentMethod = "COD" then PaymentStatus.Success
                           else PaymentStatus.Pending)) := by
  cases hfe : createFieldError d with
  | some e => left; simp [createOrderRazorpay, hfe]
  | none =>
    cases hcs : couponCheck d with
    | error e => left; simp [createOrderRazorpay, hfe, hcs]
    | ok p =>
      obtain ⟨effCode, effDiscount⟩ := p
      by_cases hI : |(validateOrderTotals (coerceItems d.items) d.couponCode).calculatedTotal -
          d.total| > (0.01 : ℚ)
      · left; simp [createOrderRazorpay, hfe, hcs, hI]
      by_cases hJ : store.any (byOrderId newOrderId) = true
      · left; simp [createOrderRazorpay, hfe, hcs, hI, hJ]
      have hIle := not_lt.mp hI
      have hJf : store.any (byOrderId newOrderId) = false := by
        cases hb : store.any (byOrderId newOrderId) with
        | true => exact absurd hb hJ
        | false => rfl
      right
      by_cases hK : d.paymentMethod = "COD"
      · by_cases hL : emailOk = true
        · refine ⟨by simp [createOrderRazorpay, hfe, hcs, hI, hJf, hK, hL], hIle, hJf,
            ⟨{ orderId := newOrderId, items := coerceItems d.items, couponCode := effCode,
               couponDiscount := effDiscount, shippingCost := d.shippingCost,
               paymentMethod := d.paymentMethod, paymentStatus := PaymentStatus.Success,
               total := d.total, createdAt := now, emailSent := true, razorpayOrderId := none,
               razorpayPaymentId := none, phonepeTransactionId := none },
             ?_, rfl, rfl, by simp [hK]⟩⟩
          simp [createOrderRazorpay, hfe, hcs, hI, hJf, hK, hL, updateFirst, byOrderId]
        · exact ⟨by simp [createOrderRazorpay, hfe, hcs, hI, hJf, hK, hL], hIle, hJf,
            ⟨{ orderId := newOrderId, items := coerceItems d.items, couponCode := effCode,
               couponDiscount := effDiscount, shippingCost := d.shippingCost,
               paymentMethod := d.paymentMethod, paymentStatus := PaymentStatus.Success,
               total := d.total, createdAt := now, emailSent := false, razorpayOrderId := none,
               razorpayPaymentId := none, phonepeTransactionId := none },
             by simp [createOrderRazorpay, hfe, hcs, hI, hJf, hK, hL], rfl, rfl, by simp [hK]⟩⟩
      · exact ⟨by simp [createOrderRazorpay, hfe, hcs, hI, hJf, hK], hIle, hJf,
          ⟨{ orderId := newOrderId, items := coerceItems d.items, couponCode := effCode,
             couponDiscount := effDiscount, shippingCost := d.shippingCost,
             paymentMethod := d.paymentMethod, paymentStatus := PaymentStatus.Pending,
             total := d.total, createdAt := now, emailSent := false, razorpayOrderId := none,
             razorpayPaymentId := none, phonepeTransactionId := none },
           by simp [createOrderRazorpay, hfe, hcs, hI, hJf, hK], rfl, rfl, by simp [hK]⟩⟩

/-! ### Characterization of `initiateRazorpayPayment` and the PhonePe initiation -/

/-- A non-200 initiation run leaves the store untouched. -/
theorem initiateRazorpay_not200 (store : List OrderDoc) (now : ℚ) (oid : String)
    (g : Option String)
    (h : (initiateRazorpayPayment store now oid g).status ≠ 200) :
    (initiateRazorpayPayment store now oid g).store = store := by
  by_cases h1 : oid = ""
  · simp [initiateRazorpayPayment, h1]
  cases hf : store.find? (pendingRazorpay oid) with
  | none => simp [initiateRazorpayPayment, h1, hf]
  | some o =>
    by_cases hv : isOrderValid now o.createdAt = true
    · by_cases hS1 : o.couponCode ≠ "" ∧ jsToUpperCase o.couponCode = "FREESHIPPING"
      · by_cases hS2 : o.shippingCost ≠ 0
        · simp [initiateRazorpayPayment, h1, hf, hv, hS1, hS2]
        · by_cases hI : |(validateOrderTotals o.items o.couponCode).calculatedTotal - o.total| >
            (0.01 : ℚ)
          · simp [initiateRazorpayPayment, h1, hf, hv, hS1, hS2, hI]
          · cases g with
            | none => simp [initiateRazorpayPayment, h1, hf, hv, hS1, hS2, hI]
            | some rid =>
              exfalso; apply h
              simp [initiateRazorpayPayment, h1, hf, hv, hS1, hS2, hI]
      · by_cases hS3 : o.shippingCost ≠
            (validateOrderTotals o.items o.couponCode).expectedShippingCost
        · simp [initiateRazorpayPayment, h1, hf, hv, hS1, hS3]
        · by_cases hI : |(validateOrderTotals o.items o.couponCode).calculatedTotal - o.total| >
            (0.01 : ℚ)
          · simp [initiateRazorpayPayment, h1, hf, hv, hS1, hS3, hI]
          · cases g with
            | none => simp [initiateRazorpayPayment, h1, hf, hv, hS1, hS3, hI]
            | some rid =>
              exfalso; apply h
              simp [initiateRazorpayPayment, h1, hf, hv, hS1, hS3, hI]
    · simp [initiateRazorpayPayment, h1, hf, hv]

/-- An expired Pending order is rejected with 400 at initiation, before any
gateway interaction, and nothing is stored on it. -/
theorem initiateRazorpay_expired (store : List OrderDoc) (now : ℚ) (oid : String)
    (g : Option String) (o : OrderDoc)
    (hf : store.find? (pendingRazorpay oid) = some o)
    (hexp : isOrderValid now o.createdAt = false) :
    (initiateRazorpayPayment store now oid g).status = 400 ∧
      (initiateRazorpayPayment store now oid g).store = store := by
  by_cases h1 : oid = ""
  · simp [initiateRazorpayPayment, h1]
  · simp [initiateRazorpayPayment, h1, hf, hexp]

/-- A 200 initiation answer implies the order was resolved Pending and within
the validity window, with its stored total re-validated. -/
theorem initiateRazorpay_200 (store : List OrderDoc) (now : ℚ) (oid : String)
    (g : Option String)
    (h : (initiateRazorpayPayment store now oid g).status = 200) :
    ∃ o, store.find? (pendingRazorpay oid) = some o ∧
      isOrderValid now o.createdAt = true ∧
      |(validateOrderTotals o.items o.couponCode).calculatedTotal - o.total| ≤ (0.01 : ℚ) := by
  by_cases h1 : oid = ""
  · simp [initiateRazorpayPayment, h1] at h
  cases hf : store.find? (pendingRazorpay oid) with
  | none => simp [initiateRazorpayPayment, h1, hf] at h
  | some o =>
    by_cases hv : isOrderValid now o.createdAt = true
    · by_cases hS1 : o.couponCode ≠ "" ∧ jsToUpperCase o.couponCode = "FREESHIPPING"
      · by_cases hS2 : o.shippingCost ≠ 0
        · simp [initiateRazorpayPayment, h1, hf, hv, hS1, hS2] at h
        · by_cases hI : |(validateOrderTotals o.items o.couponCode).calculatedTotal - o.total| >
            (0.01 : ℚ)
          · simp [initiateRazorpayPayment, h1, hf, hv, hS1, hS2, hI] at h
          · exact ⟨o, rfl, hv, not_lt.mp hI⟩
      · by_cases hS3 : o.shippingCost ≠
            (validateOrderTotals o.items o.couponCode).expectedShippingCost
        · simp [initiateRazorpayPayment, h1, hf, hv, hS1, hS3] at h
        · by_cases hI : |(validateOrderTotals o.items o.couponCode).calculatedTotal - o.total| >
            (0.01 : ℚ)
          · simp [initiateRazorpayPayment, h1, hf, hv, hS1, hS3, hI] at h
          · exact ⟨o, rfl, hv, not_lt.mp hI⟩
    · simp [initiateRazorpayPayment, h1, hf, hv] at h

/-- A 200 answer from the PhonePe initiation handler only guarantees the
order exists and is Pending: no validity-window condition appears. -/
theorem initiatePhonepe_200 (merchantId saltKey saltIndex : String)
    (store : List OrderDoc) (req : PhonepeInitRequest) (newTxnId : String)
    (gateway : Option PhonepeInitResponse)
    (h : (initiatePhonepePaymentV2 merchantId saltKey saltIndex store req newTxnId
        gateway).status = 200) :
    ∃ o, store.find? (byOrderId req.orderId) = some o ∧
      o.paymentStatus = PaymentStatus.Pending := by
  by_cases h1 : req.orderId = "" ∨ req.amount = 0 ∨ req.customerFirstName = "" ∨
      req.customerLastName = "" ∨ req.customerEmail = "" ∨ req.customerPhone = "" ∨
      req.redirectUrl = "" ∨ req.callbackUrl = "" ∨ req.mobileNumber = "" ∨
      req.merchantUserId = ""
  · simp [initiatePhonepePaymentV2, h1] at h
  by_cases h2 : merchantId = "" ∨ saltKey = "" ∨ saltIndex = ""
  · simp [initiatePhonepePaymentV2, h1, h2] at h
  cases hf : store.find? (byOrderId req.orderId) with
  | none => simp [initiatePhonepePaymentV2, h1, h2, hf] at h
  | some o =>
    by_cases hps : o.paymentStatus ≠ PaymentStatus.Pending
    · simp [initiatePhonepePaymentV2, h1, h2, hf, hps] at h
    · exact ⟨o, rfl, not_not.mp hps⟩

/-! ### Claim C2 -/

/-- C2 counterexample: terminal states are not immutable.  A PhonePe order
already Paid is re-marked Failed by `POST /verify-phonepe-payment` when the
gateway's status response is not `PAYMENT_SUCCESS`: the handler never checks
the current status before writing. -/
theorem terminal_paid_overwritten_cex :
    (verifyPhonepePaymentV2
        [⟨"O1", [], "", 0, 0, "PhonePe", PaymentStatus.Paid, 930, 0, false, none, none,
          some "T1"⟩] "O1" "T1" (some ⟨false, "INTERNAL_SERVER_ERROR"⟩)).store =
      [⟨"O1", [], "", 0, 0, "PhonePe", PaymentStatus.Failed, 930, 0, false, none, none,
        some "T1"⟩] ∧
    (verifyPhonepePaymentV2
        [⟨"O1", [], "", 0, 0, "PhonePe", PaymentStatus.Paid, 930, 0, false, none, none,
          some "T1"⟩] "O1" "T1" (some ⟨false, "INTERNAL_SERVER_ERROR"⟩)).status = 200 := by
  exact ⟨rfl, rfl⟩

/-- C2 (amended): once an order's status is the Razorpay revision's terminal
`Success`, the Razorpay verify handler never changes the store and attempts
no email; the PhonePe verify and callback handlers give no such guarantee
(they overwrite the status with the gateway-reported outcome). -/
theorem razorpay_terminal_immutable (hmac : String → String → String) (secret : String)
    (now : ℚ) (store : List OrderDoc) (oid pid roid sig : String) (emailOk : Bool)
    (o : OrderDoc) (hf : store.find? (byOrderId oid) = some o)
    (hs : o.paymentStatus = PaymentStatus.Success) :
    (verifyRazorpayPayment hmac secret now store oid pid roid sig emailOk).store = store ∧
      (verifyRazorpayPayment hmac secret now store oid pid roid sig emailOk).emailAttempts
        = 0 := by
  apply verifyRazorpay_not200
  intro h200
  obtain ⟨_, _, o2, hf2, _, h4, _, _⟩ :=
    verifyRazorpay_200_conds hmac secret now store oid pid roid sig emailOk h200
  rw [hf] at hf2
  injection hf2 with he
  exact h4 (he ▸ hs)

/-- C2 witness: the amended theorem applied to a concrete Success order. -/
theorem razorpay_terminal_immutable_witness :
    ([⟨"O1", [], "", 0, 0, "Razorpay", PaymentStatus.Success, 930, 0, true, some "R1",
        some "P1", none⟩].find? (byOrderId "O1") =
      some ⟨"O1", [], "", 0, 0, "Razorpay", PaymentStatus.Success, 930, 0, true, some "R1",
        some "P1", none⟩) ∧
    ((verifyRazorpayPayment (fun a b => a ++ b) "s" 0
        [⟨"O1", [], "", 0, 0, "Razorpay", PaymentStatus.Success, 930, 0, true, some "R1",
          some "P1", none⟩] "O1" "P1" "R1" "sR1|P1" true).store =
      [⟨"O1", [], "", 0, 0, "Razorpay", PaymentStatus.Success, 930, 0, true, some "R1",
        some "P1", none⟩] ∧
     (verifyRazorpayPayment (fun a b => a ++ b) "s" 0
        [⟨"O1", [], "", 0, 0, "Razorpay", PaymentStatus.Success, 930, 0, true, some "R1",
          some "P1", none⟩] "O1" "P1" "R1" "sR1|P1" true).emailAttempts = 0) :=
  ⟨rfl, razorpay_terminal_immutable (fun a b => a ++ b) "s" 0
    [⟨"O1", [], "", 0, 0, "Razorpay", PaymentStatus.Success, 930, 0, true, some "R1",
      some "P1", none⟩] "O1" "P1" "R1" "sR1|P1" true _ rfl rfl⟩

/-! ### Claim C3 -/

/-- C3: a confirmation report whose checksum/signature does not match the
value computed from the payload and the shared secret is rejected with 400
before any order is resolved or mutated: the PhonePe callback's store is
unchanged, and the Razorpay verify run leaves the store unchanged and
attempts no email. -/
theorem invalid_signature_rejected (sha : String → String)
    (dec : String → Option CallbackReport) (saltKey saltIndex : String)
    (pStore : List OrderDoc) (xv resp : String)
    (hx : xv ≠ sha (resp ++ "/pg/v1/status" ++ saltKey) ++ "###" ++ saltIndex)
    (hmac : String → String → String) (secret : String) (rStore : List OrderDoc)
    (now : ℚ) (oid pid roid sig : String) (emailOk : Bool)
    (hsig : sig ≠ hmac secret (roid ++ "|" ++ pid)) :
    ((phonepeCallbackV2 sha dec saltKey saltIndex pStore xv resp).store = pStore ∧
      (phonepeCallbackV2 sha dec saltKey saltIndex pStore xv resp).status = 400) ∧
    ((verifyRazorpayPayment hmac secret now rStore oid pid roid sig emailOk).store = rStore ∧
      (verifyRazorpayPayment hmac secret now rStore oid pid roid sig emailOk).status = 400 ∧
      (verifyRazorpayPayment hmac secret now rStore oid pid roid sig emailOk).emailAttempts
        = 0) := by
  constructor
  · by_cases h1 : xv = "" ∨ resp = ""
    · simp [phonepeCallbackV2, h1]
    · simp [phonepeCallbackV2, h1, hx]
  · by_cases h1 : oid = "" ∨ pid = "" ∨ roid = "" ∨ sig = ""
    · simp [verifyRazorpayPayment, h1]
    · simp [verifyRazorpayPayment, h1, Ne.symm hsig]

/-- C3 witness: a tampered checksum and a tampered signature at concrete
inputs, rejected without touching the single stored order. -/
theorem invalid_signature_rejected_witness :
    ("bad" ≠ (fun s => s) ("r" ++ "/pg/v1/status" ++ "k") ++ "###" ++ "1" ∧
     "bad" ≠ (fun a b => a ++ b) "s" ("R1" ++ "|" ++ "P1")) ∧
    (((phonepeCallbackV2 (fun s => s) (fun _ => none) "k" "1"
        [⟨"O1", [], "", 0, 0, "PhonePe", PaymentStatus.Pending, 930, 0, false, none, none,
          some "T1"⟩] "bad" "r").store =
      [⟨"O1", [], "", 0, 0, "PhonePe", PaymentStatus.Pending, 930, 0, false, none, none,
        some "T1"⟩] ∧
      (phonepeCallbackV2 (fun s => s) (fun _ => none) "k" "1"
        [⟨"O1", [], "", 0, 0, "PhonePe", PaymentStatus.Pending, 930, 0, false, none, none,
          some "T1"⟩] "bad" "r").status = 400) ∧
    ((verifyRazorpayPayment (fun a b => a ++ b) "s" 0
        [⟨"O1", [], "", 0, 0, "Razorpay", PaymentStatus.Pending, 930, 0, false, some "R1",
          none, none⟩] "O1" "P1" "R1" "bad" true).store =
      [⟨"O1", [], "", 0, 0, "Razorpay", PaymentStatus.Pending, 930, 0, false, some "R1",
        none, none⟩] ∧
      (verifyRazorpayPayment (fun a b => a ++ b) "s" 0
        [⟨"O1", [], "", 0, 0, "Razorpay", PaymentStatus.Pending, 930, 0, false, some "R1",
          none, none⟩] "O1" "P1" "R1" "bad" true).status = 400 ∧
      (verifyRazorpayPayment (fun a b => a ++ b) "s" 0
        [⟨"O1", [], "", 0, 0, "Razorpay", PaymentStatus.Pending, 930, 0, false, some "R1",
          none, none⟩] "O1" "P1" "R1" "bad" true).emailAttempts = 0)) :=
  ⟨⟨by decide, by decide⟩,
    invalid_signature_rejected (fun s => s) (fun _ => none) "k" "1"
      [⟨"O1", [], "", 0, 0, "PhonePe", PaymentStatus.Pending, 930, 0, false, none, none,
        some "T1"⟩] "bad" "r" (by decide)
      (fun a b => a ++ b) "s"
      [⟨"O1", [], "", 0, 0, "Razorpay", PaymentStatus.Pending, 930, 0, false, some "R1",
        none, none⟩] 0 "O1" "P1" "R1" "bad" true (by decide)⟩

/-! ### Claim C4 -/

/-- C4 (code-bug evidence): the second PhonePe revision's callback handler
destructures the report's `amount` but never compares it with the order's
total: a success report whose amount (100 paise) cannot match the stored
total (930 rupees) still marks the Pending order Paid and overwrites its
transaction id, instead of rejecting an amount mismatch. -/
theorem callback_ignores_amount_cex :
    (phonepeCallbackV3 (fun k m => k ++ m)
        (fun _ => some ⟨"T1", "P1", 100, "COMPLETED", "", "SUCCESS"⟩) "SALT" "1"
        [⟨"O1", [], "", 0, 0, "PhonePe", PaymentStatus.Pending, 930, 0, false, none, none,
          some "T1"⟩]
        ("SALT" ++ ("RESP" ++ "/pg/v1/status" ++ "SALT") ++ "###" ++ "1") "RESP").store =
      [⟨"O1", [], "", 0, 0, "PhonePe", PaymentStatus.Paid, 930, 0, false, none, none,
        some "P1"⟩] ∧
    (phonepeCallbackV3 (fun k m => k ++ m)
        (fun _ => some ⟨"T1", "P1", 100, "COMPLETED", "", "SUCCESS"⟩) "SALT" "1"
        [⟨"O1", [], "", 0, 0, "PhonePe", PaymentStatus.Pending, 930, 0, false, none, none,
          some "T1"⟩]
        ("SALT" ++ ("RESP" ++ "/pg/v1/status" ++ "SALT") ++ "###" ++ "1") "RESP").status
      = 200 ∧
    (100 : ℚ) ≠ 930 := by
  refine ⟨rfl, rfl, by norm_num⟩

/-! ### Claim C5 -/

/-- C5 counterexample: the accepted total is NOT always within 0.01 of
`sum(price*quantity) + shippingCost - couponDiscount`.  With one item of 50,
the FREESHIPPING coupon (stored discount 80, stored shipping cost 0) and a
client total of 1, creation answers 201 and persists the order, although the
claim's formula gives 50 + 0 - 80 = -30, i.e. an error of 31: the route
checks the floored `max(1, ...)` value instead. -/
theorem create_total_formula_cex :
    (createOrderRazorpay [] 0 "ORDER-1" true
        ⟨"Asha", "Rao", "ab@cd.ef", "9876543210", "12 MG Road", "Pune", "MH", "411001", "",
          "", "", [⟨1, 50⟩], "FREESHIPPING", 0, 0, "Razorpay", 1⟩).status = 201 ∧
    ((createOrderRazorpay [] 0 "ORDER-1" true
        ⟨"Asha", "Rao", "ab@cd.ef", "9876543210", "12 MG Road", "Pune", "MH", "411001", "",
          "", "", [⟨1, 50⟩], "FREESHIPPING", 0, 0, "Razorpay", 1⟩).store.head?.map
      (fun o => |o.total - (itemsSubtotal o.items + o.shippingCost - o.couponDiscount)|))
      = some 31 ∧
    ((0.01 : ℚ) < 31) ∧
    orderPreValidateTotalOk
      ⟨"ORDER-1", [⟨1, 50⟩], "FREESHIPPING", 80, 0, "Razorpay", PaymentStatus.Pending, 1, 0,
        false, none, none, none⟩ = false := by
  have hfe : createFieldError
      ⟨"Asha", "Rao", "ab@cd.ef", "9876543210", "12 MG Road", "Pune", "MH", "411001", "",
          "", "", [⟨1, 50⟩], "FREESHIPPING", 0, 0, "Razorpay", 1⟩ = none := by decide
  have htot : validateOrderTotals [⟨1, 50⟩] "FREESHIPPING" = ⟨50, 0, 80, 1, 80⟩ := by
    norm_num [validateOrderTotals, itemsSubtotal, calculateShippingCost, toUpper_freeshipping,
      freeshipping_ne_empty, max_def]
  have hcc : couponCheck
      ⟨"Asha", "Rao", "ab@cd.ef", "9876543210", "12 MG Road", "Pune", "MH", "411001", "",
          "", "", [⟨1, 50⟩], "FREESHIPPING", 0, 0, "Razorpay", 1⟩ = Except.ok ("FREESHIPPING", 80) := by
    norm_num [couponCheck, coerceItems, htot, toUpper_freeshipping, freeshipping_ne_empty]
  have hrun : createOrderRazorpay [] 0 "ORDER-1" true
      ⟨"Asha", "Rao", "ab@cd.ef", "9876543210", "12 MG Road", "Pune", "MH", "411001", "",
          "", "", [⟨1, 50⟩], "FREESHIPPING", 0, 0, "Razorpay", 1⟩ =
      ⟨[⟨"ORDER-1", [⟨1, 50⟩], "FREESHIPPING", 80, 0, "Razorpay", PaymentStatus.Pending, 1, 0,
        false, none, none, none⟩], 201, none, 0⟩ := by
    norm_num [createOrderRazorpay, hfe, hcc, htot, freeshipping_ne_empty, razorpay_ne_cod,
      coerceItems, byOrderId]
  rw [hrun]
  refine ⟨rfl, ?_, by norm_num, ?_⟩
  · norm_num [itemsSubtotal]
  · norm_num [orderPreValidateTotalOk, itemsSubtotal]

/-- C5 (amended): creation accepts only if the client total is within 0.01
of the recomputed and floored server total `max(1, subtotal + shipping -
discount)` (with shipping and coupon discount recomputed server-side); any
rejected creation answers 400 with nothing persisted; and a successful
payment initiation re-verified the same floored equality on the stored order
before the gateway call. -/
theorem total_validated_at_create_and_initiate (store : List OrderDoc) (now : ℚ)
    (nid : String) (eok : Bool) (d : OrderData) (store2 : List OrderDoc) (now2 : ℚ)
    (oid : String) (g : Option String) :
    ((createOrderRazorpay store now nid eok d).status = 201 →
      |(validateOrderTotals (coerceItems d.items) d.couponCode).calculatedTotal - d.total| ≤
        (0.01 : ℚ)) ∧
    ((createOrderRazorpay store now nid eok d).status ≠ 201 →
      (createOrderRazorpay store now nid eok d).status = 400 ∧
        (createOrderRazorpay store now nid eok d).store = store) ∧
    ((initiateRazorpayPayment store2 now2 oid g).status = 200 →
      ∃ o, store2.find? (pendingRazorpay oid) = some o ∧
        |(validateOrderTotals o.items o.couponCode).calculatedTotal - o.total| ≤
          (0.01 : ℚ)) := by
  refine ⟨?_, ?_, ?_⟩
  · intro h
    rcases createOrder_spec store now nid eok d with ⟨h400, _⟩ | ⟨_, hIle, _, _⟩
    · rw [h] at h400; exact absurd h400 (by norm_num)
    · exact hIle
  · intro h
    rcases createOrder_spec store now nid eok d with ⟨h400, hst⟩ | ⟨h201, _, _, _⟩
    · exact ⟨h400, hst⟩
    · exact absurd h201 h
  · intro h
    obtain ⟨o, hf, _, hIle⟩ := initiateRazorpay_200 store2 now2 oid g h
    exact ⟨o, hf, hIle⟩

/-- C5 witness: the amended theorem applied at the counterexample's concrete
creation (accepted with client total 1 against floored server total 1). -/
theorem total_validated_witness :
    |(validateOrderTotals (coerceItems [⟨1, 50⟩]) "FREESHIPPING").calculatedTotal -
        (1 : ℚ)| ≤ (0.01 : ℚ) := by
  have hfe : createFieldError
      ⟨"Asha", "Rao", "ab@cd.ef", "9876543210", "12 MG Road", "Pune", "MH", "411001", "",
          "", "", [⟨1, 50⟩], "FREESHIPPING", 0, 0, "Razorpay", 1⟩ = none := by decide
  have htot : validateOrderTotals [⟨1, 50⟩] "FREESHIPPING" = ⟨50, 0, 80, 1, 80⟩ := by
    norm_num [validateOrderTotals, itemsSubtotal, calculateShippingCost, toUpper_freeshipping,
      freeshipping_ne_empty, max_def]
  have hcc : couponCheck
      ⟨"Asha", "Rao", "ab@cd.ef", "9876543210", "12 MG Road", "Pune", "MH", "411001", "",
          "", "", [⟨1, 50⟩], "FREESHIPPING", 0, 0, "Razorpay", 1⟩ = Except.ok ("FREESHIPPING", 80) := by
    norm_num [couponCheck, coerceItems, htot, toUpper_freeshipping, freeshipping_ne_empty]
  have hrun : createOrderRazorpay [] 0 "ORDER-1" true
      ⟨"Asha", "Rao", "ab@cd.ef", "9876543210", "12 MG Road", "Pune", "MH", "411001", "",
          "", "", [⟨1, 50⟩], "FREESHIPPING", 0, 0, "Razorpay", 1⟩ =
      ⟨[⟨"ORDER-1", [⟨1, 50⟩], "FREESHIPPING", 80, 0, "Razorpay", PaymentStatus.Pending, 1, 0,
        false, none, none, none⟩], 201, none, 0⟩ := by
    norm_num [createOrderRazorpay, hfe, hcc, htot, freeshipping_ne_empty, razorpay_ne_cod,
      coerceItems, byOrderId]
  exact (total_validated_at_create_and_initiate [] 0 "ORDER-1" true
    ⟨"Asha", "Rao", "ab@cd.ef", "9876543210", "12 MG Road", "Pune", "MH", "411001", "",
          "", "", [⟨1, 50⟩], "FREESHIPPING", 0, 0, "Razorpay", 1⟩ [] 0 "X" none).1 (by rw [hrun])

/-! ### Claim C6 -/

/-- C6 counterexample: the PhonePe initiation handler performs no
validity-window check.  An order created at time 0 fails the 30-minute
window at time 3600000 ms (60 minutes), yet initiation succeeds (200) and a
gateway transaction reference is stored on it. -/
theorem phonepe_initiate_no_expiry_cex :
    isOrderValid 3600000 0 = false ∧
    (initiatePhonepePaymentV2 "M1" "SALT" "1"
        [⟨"O1", [], "", 0, 0, "PhonePe", PaymentStatus.Pending, 930, 0, false, none, none,
          none⟩]
        ⟨"O1", 93000, "Asha", "Rao", "ab@cd.ef", "9876543210", "https://r", "https://c",
          "9876543210", "U1"⟩ "TXN-O1-99" (some ⟨true, some "https://pay"⟩)).status = 200 ∧
    (initiatePhonepePaymentV2 "M1" "SALT" "1"
        [⟨"O1", [], "", 0, 0, "PhonePe", PaymentStatus.Pending, 930, 0, false, none, none,
          none⟩]
        ⟨"O1", 93000, "Asha", "Rao", "ab@cd.ef", "9876543210", "https://r", "https://c",
          "9876543210", "U1"⟩ "TXN-O1-99" (some ⟨true, some "https://pay"⟩)).store =
      [⟨"O1", [], "", 0, 0, "PhonePe", PaymentStatus.Pending, 930, 0, false, none, none,
        some "TXN-O1-99"⟩] := by
  refine ⟨by norm_num [isOrderValid], by decide, by decide⟩

/-- C6 (amended): the Razorpay initiation handler enforces the preconditions
(order resolved as Pending, 30-minute validity window): an expired order is
rejected with 400 and the store — hence any stored gateway reference — is
unchanged.  The PhonePe initiation handler checks only that the order exists
and is Pending; it has no window check. -/
theorem initiation_window_enforced_razorpay_only (store : List OrderDoc) (now : ℚ)
    (oid : String) (g : Option String) (o : OrderDoc)
    (hf : store.find? (pendingRazorpay oid) = some o)
    (hexp : isOrderValid now o.createdAt = false)
    (mid saltKey saltIndex : String) (store2 : List OrderDoc) (req : PhonepeInitRequest)
    (txn : String) (gw : Option PhonepeInitResponse) :
    ((initiateRazorpayPayment store now oid g).status = 400 ∧
      (initiateRazorpayPayment store now oid g).store = store) ∧
    ((initiatePhonepePaymentV2 mid saltKey saltIndex store2 req txn gw).status = 200 →
      ∃ o2, store2.find? (byOrderId req.orderId) = some o2 ∧
        o2.paymentStatus = PaymentStatus.Pending) :=
  ⟨initiateRazorpay_expired store now oid g o hf hexp,
    fun h => initiatePhonepe_200 mid saltKey saltIndex store2 req txn gw h⟩

/-- C6 witness: a concrete expired Pending Razorpay order (created at 0,
initiation at 60 minutes) is rejected and unchanged. -/
theorem initiation_window_enforced_witness :
    ([⟨"O1", [], "", 0, 80, "Razorpay", PaymentStatus.Pending, 930, 0, false, none, none,
        none⟩].find? (pendingRazorpay "O1") =
      some ⟨"O1", [], "", 0, 80, "Razorpay", PaymentStatus.Pending, 930, 0, false, none,
        none, none⟩ ∧
     isOrderValid 3600000 0 = false) ∧
    (((initiateRazorpayPayment
        [⟨"O1", [], "", 0, 80, "Razorpay", PaymentStatus.Pending, 930, 0, false, none, none,
          none⟩] 3600000 "O1" (some "rzp_1")).status = 400 ∧
      (initiateRazorpayPayment
        [⟨"O1", [], "", 0, 80, "Razorpay", PaymentStatus.Pending, 930, 0, false, none, none,
          none⟩] 3600000 "O1" (some "rzp_1")).store =
        [⟨"O1", [], "", 0, 80, "Razorpay", PaymentStatus.Pending, 930, 0, false, none, none,
          none⟩]) ∧
     ((initiatePhonepePaymentV2 "M1" "SALT" "1" [] ⟨"O1", 93000, "Asha", "Rao", "ab@cd.ef",
          "9876543210", "https://r", "https://c", "9876543210", "U1"⟩ "TXN-1" none).status
        = 200 →
      ∃ o2, List.find? (byOrderId "O1") ([] : List OrderDoc) = some o2 ∧
        o2.paymentStatus = PaymentStatus.Pending)) :=
  ⟨⟨by decide, by norm_num [isOrderValid]⟩,
    initiation_window_enforced_razorpay_only
      [⟨"O1", [], "", 0, 80, "Razorpay", PaymentStatus.Pending, 930, 0, false, none, none,
        none⟩] 3600000 "O1" (some "rzp_1")
      ⟨"O1", [], "", 0, 80, "Razorpay", PaymentStatus.Pending, 930, 0, false, none, none,
        none⟩ (by decide) (by norm_num [isOrderValid])
      "M1" "SALT" "1" [] ⟨"O1", 93000, "Asha", "Rao", "ab@cd.ef", "9876543210", "https://r",
        "https://c", "9876543210", "U1"⟩ "TXN-1" none⟩

/-! ### Claim C7 -/

/-- C7: `orderId` is unique.  A creation run whose generated orderId already
exists in the store answers 400 (the unique index's duplicate-key error
mapped to "Duplicate order ID") and leaves the store — in particular the
existing order — untouched; and every creation run preserves the invariant
that no two stored orders share an orderId. -/
theorem orderId_unique_enforced (store : List OrderDoc) (now : ℚ) (nid : String)
    (eok : Bool) (d : OrderData) (hdup : store.any (byOrderId nid) = true)
    (store2 : List OrderDoc) (now2 : ℚ) (nid2 : String) (eok2 : Bool) (d2 : OrderData)
    (hnodup : (store2.map OrderDoc.orderId).Nodup) :
    ((createOrderRazorpay store now nid eok d).store = store ∧
      (createOrderRazorpay store now nid eok d).status = 400) ∧
    ((createOrderRazorpay store2 now2 nid2 eok2 d2).store.map OrderDoc.orderId).Nodup := by
  constructor
  · rcases createOrder_spec store now nid eok d with ⟨h400, hst⟩ | ⟨_, _, hJf, _⟩
    · exact ⟨hst, h400⟩
    · rw [hdup] at hJf
      exact absurd hJf (by decide)
  · rcases createOrder_spec store2 now2 nid2 eok2 d2 with ⟨_, hst⟩ |
      ⟨_, _, hJf, o, hstore, hoid, _, _⟩
    · rw [hst]; exact hnodup
    · rw [hstore]
      simp only [List.map_cons, List.nodup_cons]
      refine ⟨?_, hnodup⟩
      rw [hoid]
      intro hmem
      obtain ⟨x, hx, hxe⟩ := List.mem_map.mp hmem
      have hany : store2.any (byOrderId nid2) = true :=
        List.any_eq_true.mpr ⟨x, hx, by simp [byOrderId, hxe]⟩
      rw [hJf] at hany
      exact absurd hany (by decide)

/-- C7 witness: a colliding creation against a store already holding
ORDER-1 is rejected and the store is unchanged; a creation against the
empty store keeps orderIds pairwise distinct. -/
theorem orderId_unique_enforced_witness :
    ([⟨"ORDER-1", [], "", 0, 0, "Razorpay", PaymentStatus.Pending, 930, 0, false, none, none,
        none⟩].any (byOrderId "ORDER-1") = true ∧
     ((([] : List OrderDoc).map OrderDoc.orderId).Nodup)) ∧
    (((createOrderRazorpay
        [⟨"ORDER-1", [], "", 0, 0, "Razorpay", PaymentStatus.Pending, 930, 0, false, none,
          none, none⟩] 0 "ORDER-1" true
        ⟨"", "", "", "", "", "", "", "", "", "", "", [], "", 0, 0, "", 0⟩).store =
      [⟨"ORDER-1", [], "", 0, 0, "Razorpay", PaymentStatus.Pending, 930, 0, false, none, none,
        none⟩] ∧
      (createOrderRazorpay
        [⟨"ORDER-1", [], "", 0, 0, "Razorpay", PaymentStatus.Pending, 930, 0, false, none,
          none, none⟩] 0 "ORDER-1" true
        ⟨"", "", "", "", "", "", "", "", "", "", "", [], "", 0, 0, "", 0⟩).status = 400) ∧
     (((createOrderRazorpay [] 0 "ORDER-2" true
        ⟨"", "", "", "", "", "", "", "", "", "", "", [], "", 0, 0, "", 0⟩).store.map
          OrderDoc.orderId).Nodup)) :=
  ⟨⟨by decide, by decide⟩,
    orderId_unique_enforced
      [⟨"ORDER-1", [], "", 0, 0, "Razorpay", PaymentStatus.Pending, 930, 0, false, none, none,
        none⟩] 0 "ORDER-1" true
      ⟨"", "", "", "", "", "", "", "", "", "", "", [], "", 0, 0, "", 0⟩ (by decide)
      [] 0 "ORDER-2" true
      ⟨"", "", "", "", "", "", "", "", "", "", "", [], "", 0, 0, "", 0⟩ (by decide)⟩

/-! ### Claim C8 -/

/-- A 201 from the PhonePe-revision creation handler always persists the new
order Pending: both branches of the source's status ternary are 'Pending'. -/
theorem createPhonepeV3_201_pending (store : List OrderDoc) (now : ℚ) (nid : String)
    (d : PhonepeOrderData)
    (h : (createOrderPhonepeV3 store now nid d).status = 201) :
    ((createOrderPhonepeV3 store now nid d).store.head?.map
      (fun o => o.paymentStatus)) = some PaymentStatus.Pending := by
  by_cases h1 : d.customerPresent = false ∨ d.shippingAddressPresent = false ∨
      d.itemsPresent = false ∨ d.total = 0 ∨ d.paymentMethod = ""
  · simp [createOrderPhonepeV3, h1] at h
  by_cases h2 : d.paymentMethod ≠ "PhonePe" ∧ d.paymentMethod ≠ "COD"
  · simp [createOrderPhonepeV3, h1, h2] at h
  by_cases h3 : store.any (byOrderId nid) = true
  · simp [createOrderPhonepeV3, h1, h2, h3] at h
  · simp [createOrderPhonepeV3, h1, h2, h3]

/-- C8 counterexample: a cash-on-delivery order created through the
PhonePe-revision handler is persisted with paymentStatus Pending, not with
the paid-terminal value (Paid / the Razorpay revision's Success). -/
theorem cod_created_pending_cex :
    (createOrderPhonepeV3 [] 0 "ORDER-1" ⟨true, true, true, 500, "COD"⟩).status = 201 ∧
    ((createOrderPhonepeV3 [] 0 "ORDER-1" ⟨true, true, true, 500, "COD"⟩).store.head?.map
      (fun o => o.paymentStatus)) = some PaymentStatus.Pending ∧
    PaymentStatus.Pending ≠ PaymentStatus.Paid ∧
    PaymentStatus.Pending ≠ PaymentStatus.Success := by decide

/-- C8 (amended): in the Razorpay revision a created order is persisted with
status `Success` (that revision's paid-terminal label) exactly when the
payment method is COD, and `Pending` otherwise; in the PhonePe revision every
created order, including COD, is persisted `Pending`. -/
theorem cod_initial_status (store : List OrderDoc) (now : ℚ) (nid : String) (eok : Bool)
    (d : OrderData) (h : (createOrderRazorpay store now nid eok d).status = 201)
    (store2 : List OrderDoc) (now2 : ℚ) (nid2 : String) (d2 : PhonepeOrderData)
    (h2 : (createOrderPhonepeV3 store2 now2 nid2 d2).status = 201) :
    ((createOrderRazorpay store now nid eok d).store.head?.map
      (fun o => o.paymentStatus)) =
      some (if d.paymentMethod = "COD" then PaymentStatus.Success
            else PaymentStatus.Pending) ∧
    ((createOrderPhonepeV3 store2 now2 nid2 d2).store.head?.map
      (fun o => o.paymentStatus)) = some PaymentStatus.Pending := by
  constructor
  · rcases createOrder_spec store now nid eok d with ⟨h400, _⟩ | ⟨_, _, _, o, hstore, _, _, hps⟩
    · rw [h] at h400; exact absurd h400 (by norm_num)
    · rw [hstore]
      simp [hps]
  · exact createPhonepeV3_201_pending store2 now2 nid2 d2 h2

/-- C8 witness: a concrete COD creation through the Razorpay revision is
persisted Success, and one through the PhonePe revision Pending. -/
theorem cod_initial_status_witness :
    ((createOrderRazorpay [] 0 "ORDER-1" false
        ⟨"Asha", "Rao", "ab@cd.ef", "9876543210", "12 MG Road", "Pune", "MH", "411001", "",
          "", "", [⟨1, 930⟩], "", 0, 0, "COD", 930⟩).store.head?.map
      (fun o => o.paymentStatus)) =
      some (if ("COD" : String) = "COD" then PaymentStatus.Success
            else PaymentStatus.Pending) ∧
    ((createOrderPhonepeV3 [] 0 "ORDER-2" ⟨true, true, true, 500, "COD"⟩).store.head?.map
      (fun o => o.paymentStatus)) = some PaymentStatus.Pending := by
  have hfe : createFieldError
      ⟨"Asha", "Rao", "ab@cd.ef", "9876543210", "12 MG Road", "Pune", "MH", "411001", "",
        "", "", [⟨1, 930⟩], "", 0, 0, "COD", 930⟩ = none := by decide
  have htot : validateOrderTotals [⟨1, 930⟩] "" = ⟨930, 0, 0, 930, 0⟩ := by
    norm_num [validateOrderTotals, itemsSubtotal, calculateShippingCost, max_def]
  have hcc : couponCheck
      ⟨"Asha", "Rao", "ab@cd.ef", "9876543210", "12 MG Road", "Pune", "MH", "411001", "",
        "", "", [⟨1, 930⟩], "", 0, 0, "COD", 930⟩ = Except.ok ("", 0) := by
    norm_num [couponCheck, coerceItems, htot]
  have hrun : createOrderRazorpay [] 0 "ORDER-1" false
      ⟨"Asha", "Rao", "ab@cd.ef", "9876543210", "12 MG Road", "Pune", "MH", "411001", "",
        "", "", [⟨1, 930⟩], "", 0, 0, "COD", 930⟩ =
      ⟨[⟨"ORDER-1", [⟨1, 930⟩], "", 0, 0, "COD", PaymentStatus.Success, 930, 0, false, none,
        none, none⟩], 201, none, 1⟩ := by
    norm_num [createOrderRazorpay, hfe, hcc, htot, coerceItems, byOrderId]
  exact cod_initial_status [] 0 "ORDER-1" false
    ⟨"Asha", "Rao", "ab@cd.ef", "9876543210", "12 MG Road", "Pune", "MH", "411001", "",
      "", "", [⟨1, 930⟩], "", 0, 0, "COD", 930⟩ (by rw [hrun])
    [] 0 "ORDER-2" ⟨true, true, true, 500, "COD"⟩ (by decide)

/-! ### Claim C9 -/

/-- C9: a failing confirmation-email side effect neither rolls back nor
blocks the payment transition.  When the Razorpay verify run succeeds with
the email send failing (`emailOk = false`), the resolved order is still
persisted `Success`; likewise a COD creation with a failing email still
persists the order with its paid status. -/
theorem email_failure_nonblocking (hmac : String → String → String) (secret : String)
    (now : ℚ) (store : List OrderDoc) (oid pid roid sig : String)
    (hv : (verifyRazorpayPayment hmac secret now store oid pid roid sig false).status = 200)
    (store2 : List OrderDoc) (now2 : ℚ) (nid : String) (d : OrderData)
    (hc : (createOrderRazorpay store2 now2 nid false d).status = 201)
    (hcod : d.paymentMethod = "COD") :
    (((verifyRazorpayPayment hmac secret now store oid pid roid sig false).store.find?
        (byOrderId oid)).map (fun x => x.paymentStatus)) = some PaymentStatus.Success ∧
    ((createOrderRazorpay store2 now2 nid false d).store.head?.map
      (fun x => x.paymentStatus)) = some PaymentStatus.Success := by
  constructor
  · have hst := verifyRazorpay_200_store hmac secret now store oid pid roid sig false hv
    cases hf2 : (verifyRazorpayPayment hmac secret now store oid pid roid sig false).store.find?
        (byOrderId oid) with
    | none => rw [hf2] at hst; simp at hst
    | some o2 =>
      rw [hf2] at hst
      simp at hst
      simp [hst.1]
  · rcases createOrder_spec store2 now2 nid false d with ⟨h400, _⟩ |
      ⟨_, _, _, o, hstore, _, _, hps⟩
    · rw [hc] at h400; exact absurd h400 (by norm_num)
    · rw [hstore]
      simp [hps, hcod]

/-- C9 witness: the theorem at a concrete successful verify run and a
concrete COD creation, both with the email send failing. -/
theorem email_failure_nonblocking_witness :
    (((verifyRazorpayPayment (fun a b => a ++ b) "s" 0
        [⟨"O1", [], "", 0, 0, "Razorpay", PaymentStatus.Pending, 930, 0, false, some "R1",
          none, none⟩] "O1" "P1" "R1" "sR1|P1" false).store.find?
        (byOrderId "O1")).map (fun x => x.paymentStatus)) = some PaymentStatus.Success ∧
    ((createOrderRazorpay [] 0 "ORDER-1" false
        ⟨"Asha", "Rao", "ab@cd.ef", "9876543210", "12 MG Road", "Pune", "MH", "411001", "",
          "", "", [⟨1, 930⟩], "", 0, 0, "COD", 930⟩).store.head?.map
      (fun x => x.paymentStatus)) = some PaymentStatus.Success := by
  have hv : (verifyRazorpayPayment (fun a b => a ++ b) "s" 0
      [⟨"O1", [], "", 0, 0, "Razorpay", PaymentStatus.Pending, 930, 0, false, some "R1",
        none, none⟩] "O1" "P1" "R1" "sR1|P1" false).status = 200 :=
    verifyRazorpay_200_of (fun a b => a ++ b) "s" 0
      [⟨"O1", [], "", 0, 0, "Razorpay", PaymentStatus.Pending, 930, 0, false, some "R1",
        none, none⟩] "O1" "P1" "R1" "sR1|P1" false (by decide) (by decide)
      ⟨"O1", [], "", 0, 0, "Razorpay", PaymentStatus.Pending, 930, 0, false, some "R1",
        none, none⟩ (by decide) (by decide) (by decide) (by decide)
      (by norm_num [isOrderValid])
  have hfe : createFieldError
      ⟨"Asha", "Rao", "ab@cd.ef", "9876543210", "12 MG Road", "Pune", "MH", "411001", "",
        "", "", [⟨1, 930⟩], "", 0, 0, "COD", 930⟩ = none := by decide
  have htot : validateOrderTotals [⟨1, 930⟩] "" = ⟨930, 0, 0, 930, 0⟩ := by
    norm_num [validateOrderTotals, itemsSubtotal, calculateShippingCost, max_def]
  have hcc : couponCheck
      ⟨"Asha", "Rao", "ab@cd.ef", "9876543210", "12 MG Road", "Pune", "MH", "411001", "",
        "", "", [⟨1, 930⟩], "", 0, 0, "COD", 930⟩ = Except.ok ("", 0) := by
    norm_num [couponCheck, coerceItems, htot]
  have hrun : createOrderRazorpay [] 0 "ORDER-1" false
      ⟨"Asha", "Rao", "ab@cd.ef", "9876543210", "12 MG Road", "Pune", "MH", "411001", "",
        "", "", [⟨1, 930⟩], "", 0, 0, "COD", 930⟩ =
      ⟨[⟨"ORDER-1", [⟨1, 930⟩], "", 0, 0, "COD", PaymentStatus.Success, 930, 0, false, none,
        none, none⟩], 201, none, 1⟩ := by
    norm_num [createOrderRazorpay, hfe, hcc, htot, coerceItems, byOrderId]
  exact email_failure_nonblocking (fun a b => a ++ b) "s" 0
    [⟨"O1", [], "", 0, 0, "Razorpay", PaymentStatus.Pending, 930, 0, false, some "R1",
      none, none⟩] "O1" "P1" "R1" "sR1|P1" hv [] 0 "ORDER-1"
    ⟨"Asha", "Rao", "ab@cd.ef", "9876543210", "12 MG Road", "Pune", "MH", "411001", "",
      "", "", [⟨1, 930⟩], "", 0, 0, "COD", 930⟩ (by rw [hrun]) rfl

/-! ### Claim C10 -/

/-- The recomputed, floored order total is never below 1. -/
theorem calculatedTotal_ge_one (items : List Item) (cc : String) :
    1 ≤ (validateOrderTotals items cc).calculatedTotal :=
  le_max_left 1 _

/-- C10 counterexample: the accepted (client-supplied, stored) total CAN be
below 1.  With one item of 50, FREESHIPPING and a client total of 0.995, the
floored server total is 1, the 0.01 tolerance admits 0.995, and the order is
persisted with total 0.995 < 1. -/
theorem accepted_total_below_one_cex :
    (createOrderRazorpay [] 0 "ORDER-1" true
        ⟨"Asha", "Rao", "ab@cd.ef", "9876543210", "12 MG Road", "Pune", "MH", "411001", "",
          "", "", [⟨1, 50⟩], "FREESHIPPING", 0, 0, "Razorpay", 199 / 200⟩).status = 201 ∧
    ((createOrderRazorpay [] 0 "ORDER-1" true
        ⟨"Asha", "Rao", "ab@cd.ef", "9876543210", "12 MG Road", "Pune", "MH", "411001", "",
          "", "", [⟨1, 50⟩], "FREESHIPPING", 0, 0, "Razorpay", 199 / 200⟩).store.head?.map
      (fun o => o.total)) = some ((199 : ℚ) / 200) ∧
    ((199 : ℚ) / 200 < 1) := by
  have hem : emailMatches "ab@cd.ef" = true := by decide
  have hph : phoneMatches "9876543210" = true := by decide
  have hpc : pincodeMatches "411001" = true := by decide
  have hany : (coerceItems [⟨1, 50⟩]).any
      (fun it => decide (it.quantity < 1) || decide (it.price < 0)) = false := by decide
  have hfe : createFieldError
      ⟨"Asha", "Rao", "ab@cd.ef", "9876543210", "12 MG Road", "Pune", "MH", "411001", "",
        "", "", [⟨1, 50⟩], "FREESHIPPING", 0, 0, "Razorpay", 199 / 200⟩ = none := by
    simp [createFieldError, hem, hph, hpc, hany]
    simp [coerceItems]
  have htot : validateOrderTotals [⟨1, 50⟩] "FREESHIPPING" = ⟨50, 0, 80, 1, 80⟩ := by
    norm_num [validateOrderTotals, itemsSubtotal, calculateShippingCost, toUpper_freeshipping,
      freeshipping_ne_empty, max_def]
  have hcc : couponCheck
      ⟨"Asha", "Rao", "ab@cd.ef", "9876543210", "12 MG Road", "Pune", "MH", "411001", "",
        "", "", [⟨1, 50⟩], "FREESHIPPING", 0, 0, "Razorpay", 199 / 200⟩ =
      Except.ok ("FREESHIPPING", 80) := by
    norm_num [couponCheck, coerceItems, htot, toUpper_freeshipping, freeshipping_ne_empty]
  have hrun : createOrderRazorpay [] 0 "ORDER-1" true
      ⟨"Asha", "Rao", "ab@cd.ef", "9876543210", "12 MG Road", "Pune", "MH", "411001", "",
        "", "", [⟨1, 50⟩], "FREESHIPPING", 0, 0, "Razorpay", 199 / 200⟩ =
      ⟨[⟨"ORDER-1", [⟨1, 50⟩], "FREESHIPPING", 80, 0, "Razorpay", PaymentStatus.Pending,
        199 / 200, 0, false, none, none, none⟩], 201, none, 0⟩ := by
    norm_num [createOrderRazorpay, hfe, hcc, htot, freeshipping_ne_empty, razorpay_ne_cod,
      coerceItems, byOrderId, abs_le]
  rw [hrun]
  exact ⟨rfl, rfl, by norm_num⟩

/-- C10 (amended): the server-side shipping cost is the fixed tier function
of the items subtotal (0 from 800 up, 50 from 500 up, else 80); the computed
order total is floored at 1 by `max(1, subtotal + shipping - discount)`; and
consequently every accepted client total is at least 1 - 0.01 = 0.99 — but
not necessarily at least 1 (see the counterexample). -/
theorem shipping_tiers_and_total_floor (s : ℚ) (items : List Item) (cc : String)
    (store : List OrderDoc) (now : ℚ) (nid : String) (eok : Bool) (d : OrderData) :
    (800 ≤ s → calculateShippingCost s = 0) ∧
    (500 ≤ s → s < 800 → calculateShippingCost s = 50) ∧
    (s < 500 → calculateShippingCost s = 80) ∧
    1 ≤ (validateOrderTotals items cc).calculatedTotal ∧
    ((createOrderRazorpay store now nid eok d).status = 201 → (0.99 : ℚ) ≤ d.total) := by
  refine ⟨?_, ?_, ?_, calculatedTotal_ge_one items cc, ?_⟩
  · intro h
    simp only [calculateShippingCost]
    rw [if_pos h]
  · intro h1 h2
    simp only [calculateShippingCost]
    rw [if_neg (by intro hh; exact absurd hh (by push_neg; linarith)), if_pos h1]
  · intro h
    simp only [calculateShippingCost]
    rw [if_neg (by intro hh; exact absurd hh (by push_neg; linarith)),
      if_neg (by intro hh; exact absurd hh (by push_neg; linarith))]
  · intro h
    rcases createOrder_spec store now nid eok d with ⟨h400, _⟩ | ⟨_, hIle, _, _⟩
    · rw [h] at h400; exact absurd h400 (by norm_num)
    · have h1le := calculatedTotal_ge_one (coerceItems d.items) d.couponCode
      have habs := (abs_le.mp hIle).2
      linarith

/-- C10 witness: the tier function and the floored-total bound at concrete
inputs (subtotal 900 ships free; the counterexample's creation run has total
0.995 ≥ 0.99). -/
theorem shipping_tiers_witness :
    ((800 : ℚ) ≤ 900 ∧ calculateShippingCost 900 = 0) ∧
    ((1 : ℚ) ≤ (validateOrderTotals [⟨1, 50⟩] "FREESHIPPING").calculatedTotal) :=
  ⟨⟨by norm_num,
    (shipping_tiers_and_total_floor 900 [⟨1, 50⟩] "FREESHIPPING" [] 0 "W" true
      ⟨"", "", "", "", "", "", "", "", "", "", "", [], "", 0, 0, "", 0⟩).1 (by norm_num)⟩,
    (shipping_tiers_and_total_floor 900 [⟨1, 50⟩] "FREESHIPPING" [] 0 "W" true
      ⟨"", "", "", "", "", "", "", "", "", "", "", [], "", 0, 0, "", 0⟩).2.2.2.1⟩

end Shop
